import Mathlib

/-!
Verification development for the viewportCapture tool
(src/viewportCapture_2025_v03.py).

The Python program manipulates "Settings Snapshots": plain Python
dictionaries mapping section names to sub-dictionaries of primitive
values (booleans, ints, floats, strings, lists of numbers).  We embed
Python values shallowly as `PyVal`, dictionaries as insertion-ordered
association lists (Python 3.7+ dicts preserve insertion order), and
fallible Python evaluation (exceptions) as `Except String`.

Python floats are embedded as rationals; their printed form is produced
by `pyFloatStr`, an abstraction of CPython's `repr` (exact but not
character-identical to CPython's decimal output, which no claim
inspects).
-/

/-- A Python value, as used by the snapshot data model: bool, int,
float, str, list, dict (with string keys, insertion ordered). -/
inductive PyVal where
  | vBool (b : Bool)
  | vInt (n : Int)
  | vFloat (q : ℚ)
  | vStr (s : String)
  | vList (xs : List PyVal)
  | vDict (d : List (String × PyVal))

mutual
/-- Python `==` on embedded values (structural equality). -/
def PyVal.beq : PyVal → PyVal → Bool
  | .vBool a, .vBool b => a == b
  | .vInt a, .vInt b => a == b
  | .vFloat a, .vFloat b => a == b
  | .vStr a, .vStr b => a == b
  | .vList xs, .vList ys => PyVal.beqList xs ys
  | .vDict d, .vDict e => PyVal.beqDict d e
  | _, _ => false
termination_by structural v => v

def PyVal.beqList : List PyVal → List PyVal → Bool
  | [], [] => true
  | x :: xs, y :: ys => PyVal.beq x y && PyVal.beqList xs ys
  | _, _ => false
termination_by structural xs => xs

def PyVal.beqDict : List (String × PyVal) → List (String × PyVal) → Bool
  | [], [] => true
  | (k, v) :: ps, (l, w) :: qs => k == l && PyVal.beq v w && PyVal.beqDict ps qs
  | _, _ => false
termination_by structural ps => ps
end

instance : BEq PyVal := ⟨PyVal.beq⟩

/-- A Settings Snapshot: the top-level Python dict. -/
abbrev Snapshot := List (String × PyVal)

/-- Python dict lookup (`d[k]` when present): first binding wins. -/
def dget (d : List (String × PyVal)) (k : String) : Option PyVal :=
  (d.find? (fun p => p.fst == k)).map Prod.snd

/-- Python `k in d` for a dict. -/
def dmem (d : List (String × PyVal)) (k : String) : Bool :=
  (dget d k).isSome

/-- Python dict assignment `d[k] = v`: overwrite in place (keeping the
key's original position) or append a new binding. -/
def dinsert (d : List (String × PyVal)) (k : String) (v : PyVal) :
    List (String × PyVal) :=
  if dmem d k then
    d.map (fun p => if p.fst == k then (k, v) else p)
  else
    d ++ [(k, v)]

/-- Python truthiness (`bool(v)`). -/
def pyTruthy : PyVal → Bool
  | .vBool b => b
  | .vInt n => n != 0
  | .vFloat q => q != 0
  | .vStr s => !s.isEmpty
  | .vList xs => !xs.isEmpty
  | .vDict d => !d.isEmpty

/-- Rendering of an embedded Python float (abstraction of CPython
`repr` on floats: exact and injective, not character-identical). -/
def pyFloatStr (q : ℚ) : String :=
  if q.den = 1 then toString q.num ++ ".0"
  else toString q.num ++ "/" ++ toString q.den

mutual
/-- Python `repr(v)` (also the rendering of container elements in
`str`). -/
def pyRepr : PyVal → String
  | .vBool true => "True"
  | .vBool false => "False"
  | .vInt n => toString n
  | .vFloat q => pyFloatStr q
  | .vStr s => "'" ++ s ++ "'"
  | .vList xs => "[" ++ String.intercalate ", " (pyReprList xs) ++ "]"
  | .vDict d => "\x7b" ++ String.intercalate ", " (pyReprDict d) ++ "\x7d"
termination_by structural v => v

def pyReprList : List PyVal → List String
  | [] => []
  | v :: vs => pyRepr v :: pyReprList vs
termination_by structural xs => xs

def pyReprDict : List (String × PyVal) → List String
  | [] => []
  | (k, v) :: ps => ("'" ++ k ++ "': " ++ pyRepr v) :: pyReprDict ps
termination_by structural ps => ps
end

/-- Python `str(v)`: like `repr` except a top-level string is
unquoted. -/
def pyStr : PyVal → String
  | .vStr s => s
  | v => pyRepr v

/-- Python `s.lower()` (character-wise lowercasing on the char
list). -/
def strLower (s : String) : String := String.mk (s.data.map Char.toLower)

/-- Python `int(v)` (truncation toward zero on floats; numeric-string
parsing abstracted by `String.toInt?`). -/
def pyToInt : PyVal → Except String Int
  | .vBool b => .ok (if b then 1 else 0)
  | .vInt n => .ok n
  | .vFloat q => .ok (Int.tdiv q.num q.den)
  | .vStr s =>
    match s.trim.toInt? with
    | some n => .ok n
    | none => .error "ValueError: invalid literal for int()"
  | _ => .error "TypeError: int() argument"

/-- Python `k in v` for an arbitrary value: key membership on dicts,
substring test on strings, element membership on lists, `TypeError`
otherwise. -/
def pyContains (v : PyVal) (k : String) : Except String Bool :=
  match v with
  | .vDict d => .ok (dmem d k)
  | .vList xs => .ok (xs.contains (.vStr k))
  | .vStr s =>
    .ok ((List.range (s.toList.length + 1)).any
      (fun i => k.toList.isPrefixOf (s.toList.drop i)))
  | _ => .error "TypeError: argument is not iterable"

/-- Python `v[k]` with a string key: dict subscript (KeyError when
missing), `TypeError` on anything else. -/
def pySubscript : PyVal → String → Except String PyVal
  | .vDict d, k =>
    match dget d k with
    | some v => .ok v
    | none => .error ("KeyError: " ++ k)
  | _, _ => .error "TypeError: subscript"

/-- Python `v[i]` with an integer index (lists and strings). -/
def pyIndex : PyVal → Nat → Except String PyVal
  | .vList xs, i =>
    match xs.get? i with
    | some v => .ok v
    | none => .error "IndexError: list index out of range"
  | .vStr s, i =>
    match s.toList.get? i with
    | some c => .ok (.vStr (String.mk [c]))
    | none => .error "IndexError: string index out of range"
  | _, _ => .error "TypeError: not subscriptable"

/-!
## Script Emitter (`settings_to_mel`, source lines 368-500)

Each Python `mel_commands.append`/`.extend` block becomes a list-valued
emitter; exceptions the Python code would raise (KeyError on a missing
`display` section, TypeError/IndexError on ill-typed values) become
`Except.error`, raised in the same left-to-right order as Python
evaluates them.
-/

/-- Sequence several line-producing computations, stopping at the first
error (Python statements raise in order). -/
def seqLines : List (Except String (List String)) → Except String (List String)
  | [] => .ok []
  | x :: xs =>
    match x with
    | .error e => .error e
    | .ok l =>
      match seqLines xs with
      | .error e => .error e
      | .ok ls => .ok (l ++ ls)

/-- `if key in sect: <emit from sect[key]>` (source pattern used for the
camera and background sections). -/
def sectLines (sect : PyVal) (key : String)
    (mk : PyVal → Except String (List String)) : Except String (List String) :=
  match pyContains sect key with
  | .error e => .error e
  | .ok false => .ok []
  | .ok true =>
    match pySubscript sect key with
    | .error e => .error e
    | .ok v => mk v

/-- Python loop `for k, v in d.items(): <emit>`, first exception wins. -/
def emitItems (f : String → PyVal → Except String (List String)) :
    List (String × PyVal) → Except String (List String)
  | [] => .ok []
  | (k, v) :: rest =>
    match f k v with
    | .error e => .error e
    | .ok l =>
      match emitItems f rest with
      | .error e => .error e
      | .ok ls => .ok (l ++ ls)

/-- The fixed procedure header emitted first (source lines 373-400). -/
def melPreamble : List String :=
  ["// Viewport Settings - Generated by viewportCapture",
   "global proc viewportCaptureApply()",
   "\x7b",
   "    string $panel = `getPanel -withFocus`;",
   "    if (`getPanel -typeOf $panel` != \"modelPanel\")",
   "    \x7b",
   "        string $modelPanels[] = `getPanel -type \"modelPanel\"`;",
   "        $panel = \"\";",
   "        if (size($modelPanels) > 0)",
   "        \x7b",
   "            $panel = $modelPanels[0];",
   "        \x7d",
   "        if ($panel == \"\")",
   "        \x7b",
   "            error \"No valid modelPanel found.\\nPlease open a viewport first.\";",
   "            return;",
   "        \x7d",
   "    \x7d",
   "",
   "    // Set Viewport 2.0 renderer",
   "    modelEditor -e -rendererName \"vp2Renderer\" $panel;",
   "",
   "    string $camera = `modelEditor -q -camera $panel`;",
   "    if ($camera != \"\")",
   "    \x7b",
   "        // Camera Gate Settings"]

def mkFilmGateLine (v : PyVal) : Except String (List String) :=
  .ok ["        camera -e -displayFilmGate " ++ strLower (pyStr v) ++ " $camera;"]

def mkResolutionLine (v : PyVal) : Except String (List String) :=
  .ok ["        camera -e -displayResolution " ++ strLower (pyStr v) ++ " $camera;"]

def mkOverscanLine (v : PyVal) : Except String (List String) :=
  .ok ["        camera -e -overscan " ++ pyStr v ++ " $camera;"]

def mkGateMaskLine (v : PyVal) : Except String (List String) :=
  .ok ["        camera -e -displayGateMask " ++ strLower (pyStr v) ++ " $camera;"]

def mkFilmFitLine (v : PyVal) : Except String (List String) :=
  .ok ["        camera -e -filmFit " ++ pyStr v ++ " $camera;"]

/-- Camera gate statements (source lines 402-410). -/
def cameraGateLines (s : Snapshot) : Except String (List String) :=
  match dget s "camera_gate" with
  | none => .ok []
  | some cg =>
    seqLines
      [sectLines cg "displayFilmGate" mkFilmGateLine,
       sectLines cg "displayResolution" mkResolutionLine,
       sectLines cg "overscan" mkOverscanLine]

/-- Camera gate-mask statement (source lines 412-416). -/
def cameraMaskLines (s : Snapshot) : Except String (List String) :=
  match dget s "camera_mask" with
  | none => .ok []
  | some cm => sectLines cm "displayGateMask" mkGateMaskLine

/-- Camera film-fit statement (source lines 418-422). -/
def cameraFilmfitLines (s : Snapshot) : Except String (List String) :=
  match dget s "camera_filmfit" with
  | none => .ok []
  | some cf => sectLines cf "filmFit" mkFilmFitLine

/-- The GPU Cache block with its plugin-load guard (source lines
427-436); the flag defaults to `False` when absent. -/
def gpuBlock (s : Snapshot) : Except String (List String) :=
  match (match dget s "plugin_display" with
         | none => Except.ok (PyVal.vBool false)
         | some (.vDict pd) => Except.ok ((dget pd "gpuCache").getD (.vBool false))
         | some _ => Except.error "AttributeError: get") with
  | .error e => .error e
  | .ok v => .ok
    ["    // GPU Cache Settings",
     "    if (!`pluginInfo -q -loaded \"gpuCache\"`)",
     "    \x7b",
     "        loadPlugin \"gpuCache\";",
     "    \x7d",
     "    modelEditor -e -pluginObjects gpuCacheDisplayFilter "
       ++ strLower (pyStr v) ++ " $panel;",
     ""]

/-- One iteration of the display-settings loop (source lines 440-460). -/
def displayAttrLines (attr : String) (value : PyVal) :
    Except String (List String) :=
  if attr == "hwFog" then
    match pyToInt value with
    | .error e => .error e
    | .ok n => .ok
      ["    modelEditor -e -hwFog " ++ strLower (pyStr value) ++ " $panel;",
       "    if (!`objExists \"hardwareRenderingGlobals\"`) \x7b",
       "        createNode \"hardwareRenderingGlobals\";",
       "    \x7d",
       "    setAttr \"hardwareRenderingGlobals.hwFogEnable\" " ++ toString n ++ ";"]
  else if attr == "fogging" then
    .ok ["    modelEditor -e -fogging " ++ strLower (pyStr value) ++ " $panel;"]
  else if attr == "displayLights" || attr == "displayAppearance" then
    .ok ["    modelEditor -e -" ++ attr ++ " \"" ++ pyStr value ++ "\" $panel;"]
  else if attr == "twoSidedLighting" then
    .ok ["    modelEditor -e -twoSidedLighting " ++ strLower (pyStr value) ++ " $panel;"]
  else if attr == "shadows" then
    .ok ["    modelEditor -e -shadows " ++ strLower (pyStr value) ++ " $panel;"]
  else if attr == "jointXray" then
    .ok ["    modelEditor -e -jointXray " ++ strLower (pyStr value) ++ " $panel;"]
  else if attr == "activeComponentsXray" then
    .ok ["    modelEditor -e -activeComponentsXray " ++ strLower (pyStr value) ++ " $panel;"]
  else
    .ok ["    modelEditor -e -" ++ attr ++ " " ++ strLower (pyStr value) ++ " $panel;"]

/-- The display-settings loop; note `settings['display']` is read
unguarded in the source, so a missing or non-dict `display` section is
an exception. -/
def displayLines (s : Snapshot) : Except String (List String) :=
  match pySubscript (.vDict s) "display" with
  | .error e => .error e
  | .ok (.vDict items) => emitItems displayAttrLines items
  | .ok _ => .error "AttributeError: items"

def mkGradientLine (v : PyVal) : Except String (List String) :=
  .ok ["    displayPref -displayGradient " ++ strLower (pyStr v) ++ ";"]

/-- A `displayRGBColor` statement with the three components of `v`
(source indexes `v[0] v[1] v[2]`). -/
def colorLine (name : String) (v : PyVal) : Except String (List String) :=
  match pyIndex v 0 with
  | .error e => .error e
  | .ok a =>
    match pyIndex v 1 with
    | .error e => .error e
    | .ok b =>
      match pyIndex v 2 with
      | .error e => .error e
      | .ok c => .ok
        ["    displayRGBColor \"" ++ name ++ "\" " ++ pyStr a ++ " "
          ++ pyStr b ++ " " ++ pyStr c ++ ";"]

/-- The gated bottom-color statement: emitted only when
`bg.get('gradient')` is truthy and `bottomColor` is present (source
lines 477-480). -/
def bottomPart (bgv : PyVal) : Except String (List String) :=
  match bgv with
  | .vDict bg =>
    if (match dget bg "gradient" with
        | some g => pyTruthy g
        | none => false) then
      if dmem bg "bottomColor" then
        match pySubscript (.vDict bg) "bottomColor" with
        | .error e => .error e
        | .ok v => colorLine "backgroundBottom" v
      else .ok []
    else .ok []
  | _ => .error "AttributeError: get"

/-- Background statements (source lines 462-480). -/
def backgroundLines (s : Snapshot) : Except String (List String) :=
  match dget s "background" with
  | none => .ok []
  | some bgv =>
    match seqLines
      [sectLines bgv "gradient" mkGradientLine,
       sectLines bgv "topColor" (colorLine "backgroundTop"),
       sectLines bgv "color" (colorLine "background"),
       bottomPart bgv] with
    | .error e => .error e
    | .ok l => .ok ("" :: "    // Background Settings" :: l)

/-- One iteration of the Hardware 2.0 loop (source lines 490-497):
booleans are first coerced to `int`, list values are emitted as a
`double3` triple, everything else as a scalar. -/
def hw2AttrLines (attr : String) (value : PyVal) :
    Except String (List String) :=
  let value' := match value with
    | .vBool b => PyVal.vInt (if b then 1 else 0)
    | v => v
  match value' with
  | .vList xs =>
    match pyIndex (.vList xs) 0 with
    | .error e => .error e
    | .ok a =>
      match pyIndex (.vList xs) 1 with
      | .error e => .error e
      | .ok b =>
        match pyIndex (.vList xs) 2 with
        | .error e => .error e
        | .ok c => .ok
          ["    setAttr \"hardwareRenderingGlobals." ++ attr
            ++ "\" -type double3 " ++ pyStr a ++ " " ++ pyStr b ++ " "
            ++ pyStr c ++ ";"]
  | v => .ok ["    setAttr \"hardwareRenderingGlobals." ++ attr ++ "\" "
      ++ pyStr v ++ ";"]

/-- Hardware 2.0 statements (source lines 482-497). -/
def hardware2Lines (s : Snapshot) : Except String (List String) :=
  match dget s "hardware2" with
  | none => .ok []
  | some hv =>
    match hv with
    | .vDict items =>
      match emitItems hw2AttrLines items with
      | .error e => .error e
      | .ok l => .ok
        (["",
          "    // Hardware 2.0 Settings",
          "    if (!`objExists \"hardwareRenderingGlobals\"`) \x7b",
          "        createNode \"hardwareRenderingGlobals\";",
          "    \x7d"] ++ l)
    | _ => .error "AttributeError: items"

/-- The fixed closing lines: end of procedure and the unconditional
self-invocation (source line 499). -/
def melClose : List String := ["\x7d", "", "viewportCaptureApply();"]

/-- All emitted lines, in source order: preamble, camera sections,
close of the camera guard, GPU Cache block, display header and loop,
background, Hardware 2.0, close and self-invocation. -/
def melLines (s : Snapshot) : Except String (List String) :=
  match cameraGateLines s with
  | .error e => .error e
  | .ok cg =>
  match cameraMaskLines s with
  | .error e => .error e
  | .ok cm =>
  match cameraFilmfitLines s with
  | .error e => .error e
  | .ok cf =>
  match gpuBlock s with
  | .error e => .error e
  | .ok g =>
  match displayLines s with
  | .error e => .error e
  | .ok dl =>
  match backgroundLines s with
  | .error e => .error e
  | .ok bgl =>
  match hardware2Lines s with
  | .error e => .error e
  | .ok hwl =>
    .ok (melPreamble ++ cg ++ cm ++ cf ++ ["    \x7d", ""] ++ g
      ++ ["    // Display Settings"] ++ dl ++ bgl ++ hwl ++ melClose)

/-- `settings_to_mel` (source lines 368-500): a falsy snapshot (None or
the empty dict) yields the fixed placeholder; otherwise the joined
emitted lines. -/
def settings_to_mel (settings : Option Snapshot) : Except String String :=
  match settings with
  | none => .ok "// No settings captured"
  | some d =>
    if d.isEmpty then .ok "// No settings captured"
    else
      match melLines d with
      | .error e => .error e
      | .ok l => .ok (String.intercalate "\n" l)

/-!
## Preset persistence (source lines 502-631)

`save_preset` serializes the snapshot with `json.dump`, `load_preset`
parses it back with `json.load`.  The `json` stdlib is external to the
repository; we model it as the evident embedding of Python values into
JSON values (`toJson` / `fromJson`) and the preset directory as a map
from file path to the stored JSON document.
-/

/-- A JSON value as written by `json.dump` and read by `json.load`
(numbers keep the int/float distinction, which survives the textual
round trip in Python). -/
inductive JVal where
  | jBool (b : Bool)
  | jInt (n : Int)
  | jFloat (q : ℚ)
  | jStr (s : String)
  | jArr (xs : List JVal)
  | jObj (d : List (String × JVal))

mutual
/-- `json.dump`: the JSON document written for a Python value. -/
def toJson : PyVal → JVal
  | .vBool b => .jBool b
  | .vInt n => .jInt n
  | .vFloat q => .jFloat q
  | .vStr s => .jStr s
  | .vList xs => .jArr (toJsonList xs)
  | .vDict d => .jObj (toJsonDict d)
termination_by structural v => v

def toJsonList : List PyVal → List JVal
  | [] => []
  | v :: vs => toJson v :: toJsonList vs
termination_by structural xs => xs

def toJsonDict : List (String × PyVal) → List (String × JVal)
  | [] => []
  | (k, v) :: ps => (k, toJson v) :: toJsonDict ps
termination_by structural ps => ps
end

mutual
/-- `json.load`: the Python value read back from a JSON document. -/
def fromJson : JVal → PyVal
  | .jBool b => .vBool b
  | .jInt n => .vInt n
  | .jFloat q => .vFloat q
  | .jStr s => .vStr s
  | .jArr xs => .vList (fromJsonList xs)
  | .jObj d => .vDict (fromJsonDict d)
termination_by structural v => v

def fromJsonList : List JVal → List PyVal
  | [] => []
  | v :: vs => fromJson v :: fromJsonList vs
termination_by structural xs => xs

def fromJsonDict : List (String × JVal) → List (String × PyVal)
  | [] => []
  | (k, v) :: ps => (k, fromJson v) :: fromJsonDict ps
termination_by structural ps => ps
end

/-- Does a JSON object document carry a given top-level key? -/
def jHasKey : JVal → String → Bool
  | .jObj d, k => ((d.find? (fun p => p.fst == k)).map Prod.snd).isSome
  | _, _ => false

/-- The preset directory: a map from file path to the JSON document
stored in that file. -/
abbrev FileStore := List (String × JVal)

def fsLookup (fs : FileStore) (p : String) : Option JVal :=
  (fs.find? (fun q => q.fst == p)).map Prod.snd

/-- `os.path.exists` on a preset file. -/
def fsExists (fs : FileStore) (p : String) : Bool := (fsLookup fs p).isSome

/-- `open(path, 'w')` + `json.dump`: (over)write one file. -/
def fsWrite (fs : FileStore) (p : String) (v : JVal) : FileStore := (p, v) :: fs

/-- `os.path.join(get_preset_dir(), name + ".json")` (path joining
abstracted to `/`-concatenation; both save and load resolve the
directory the same way per operation). -/
def presetPath (dir name : String) : String := dir ++ "/" ++ name ++ ".json"

/-- The user-interaction outcomes consumed by `save_preset`. -/
structure SaveDialog where
  result : String        -- promptDialog: "Save" or "Cancel"
  nameText : String      -- the entered preset name
  confirmResult : String -- confirmDialog when the target exists: "Yes"/"No"

/-- `save_preset` (source lines 526-565): refuses with no side effect
when there is nothing captured, the dialog is cancelled, or the name is
empty; asks for confirmation when the target file exists and aborts on
"No"; otherwise writes the serialized snapshot. -/
def save_preset (fs : FileStore) (dir : String) (lastCaptured : Option PyVal)
    (dlg : SaveDialog) : FileStore × String :=
  match lastCaptured with
  | none => (fs, "No settings to save")
  | some settings =>
    if !pyTruthy settings then (fs, "No settings to save")
    else if dlg.result == "Save" then
      if dlg.nameText != "" then
        let path := presetPath dir dlg.nameText
        if fsExists fs path && dlg.confirmResult == "No" then
          (fs, "Save cancelled.")
        else
          (fsWrite fs path (toJson settings),
           "Preset '" ++ dlg.nameText ++ "' saved")
      else (fs, "")
    else (fs, "")

/-- `load_preset` (source lines 568-597), restricted to the value it
loads into `last_captured_settings`: errors when nothing is selected or
the file is missing; otherwise the deserialized snapshot.  The
subsequent steps of the source (UI update, MEL generation and
`mel.eval`) never change the loaded value. -/
def load_preset (fs : FileStore) (dir : String) (selected : Option String) :
    Except String PyVal :=
  match selected with
  | none => .error "No preset selected"
  | some name =>
    match fsLookup fs (presetPath dir name) with
    | none => .error "Error loading preset: file not found"
    | some j => .ok (fromJson j)

/-- Python `f.endswith(suffix)`. -/
def strEndsWith (s suf : String) : Bool :=
  List.isPrefixOf suf.data.reverse s.data.reverse

/-- Python slicing `f[:-n]`. -/
def pyDropLast (s : String) (n : Nat) : String :=
  String.mk (s.data.take (s.data.length - n))

/-- `refresh_preset_list` (source lines 624-631), restricted to the
list of names it shows: recomputed from the directory contents (`none`
models a non-existent directory), keeping the `.json` files with the
suffix stripped, sorted. -/
def refresh_preset_list (dirFiles : Option (List String)) : List String :=
  match dirFiles with
  | none => []
  | some files =>
    List.insertionSort (· ≤ ·)
      ((files.filter (fun f => strEndsWith f ".json")).map
        (fun f => pyDropLast f 5))

/-!
## Settings capture (`capture_settings`, source lines 166-249)

The host application (Maya's `cmds` surface) is modelled as an oracle:
each attribute read either yields a value or raises.  Per-field
failures are caught and the field is simply absent; the fields of one
`try` block abort together from the first failure on.  The `hwFog`
branch additionally mirrors the flag onto the render-globals node: a
host-side effect that never changes the captured snapshot, so it does
not appear in the snapshot-valued model.
-/

/-- The fixed list of standard display attributes (source lines
55-68). -/
def display_attrs : List String :=
  ["nurbsCurves", "nurbsSurfaces", "polymeshes", "subdivSurfaces",
   "planes", "lights", "joints", "ikHandles", "deformers",
   "dynamics", "fluids", "hairSystems", "follicles", "nCloths",
   "nParticles", "nRigids", "dynamicConstraints", "locators",
   "manipulators", "grid", "handles", "pivots", "textures",
   "strokes", "selectionHiliteDisplay", "headsUpDisplay",
   "displayLights", "wireframeOnShaded", "wireframe", "xray",
   "backfaceCulling", "smoothWireframe", "displayTextures",
   "displayAppearance", "useDefaultMaterial", "hwFog", "fogging",
   "dimensions", "cv", "particleInstancers", "motionTrails",
   "cameras", "imagePlane", "hulls", "twoSidedLighting", "shadows",
   "jointXray", "activeComponentsXray"]

/-- Declared type of a Hardware 2.0 attribute (source lines 71-101). -/
inductive AttrTy where
  | tBool
  | tInt
  | tFloat
  | tFloat3

/-- The fixed Hardware 2.0 attribute table (source lines 71-101). -/
def hw2_attrs : List (String × AttrTy) :=
  [("multiSampleEnable", .tBool), ("multiSampleCount", .tInt),
   ("ssaoEnable", .tBool), ("ssaoAmount", .tFloat),
   ("ssaoRadius", .tFloat), ("ssaoFilterRadius", .tFloat),
   ("motionBlurEnable", .tBool), ("motionBlurSampleCount", .tInt),
   ("motionBlurShutterOpenFraction", .tFloat),
   ("motionBlurShutterCloseFraction", .tFloat),
   ("transparencyAlgorithm", .tInt), ("transparencyQuality", .tFloat),
   ("transparencyShadowDepth", .tInt), ("lineAAEnable", .tBool),
   ("maxHardwareLines", .tInt), ("minimumPixelWidth", .tFloat),
   ("hwFogEnable", .tBool), ("hwFogMode", .tInt),
   ("hwFogStart", .tFloat), ("hwFogEnd", .tFloat),
   ("hwFogDensity", .tFloat), ("hwFogColor", .tFloat3),
   ("hwFogFalloff", .tInt), ("hwFogRatio", .tFloat),
   ("defaultLightIntensity", .tFloat), ("consolidateWorld", .tBool),
   ("maxHardwareLights", .tInt), ("transparentShadow", .tBool),
   ("alphaCutPrepass", .tBool)]

/-- The host-state oracle: the outcome of every attribute read
`capture_settings` performs. -/
structure Host where
  /-- `cmds.modelEditor(panel, q=True, camera=True)`; the empty string
  is the falsy "no camera" answer. -/
  activeCamera : String
  camFilmGate : Except String PyVal
  camResolution : Except String PyVal
  camOverscan : Except String PyVal
  camGateMask : Except String PyVal
  camFilmFit : Except String PyVal
  /-- `cmds.modelEditor(panel, q=True, <attr>=True)` per display attribute. -/
  displayQ : String → Except String PyVal
  bgGradient : Except String PyVal
  bgColor : Except String PyVal
  bgTop : Except String PyVal
  bgBottom : Except String PyVal
  /-- `cmds.getAttr('hardwareRenderingGlobals.' + attr)`, raw result. -/
  hwQ : String → Except String PyVal

/-- The camera-gate `try` block (source lines 184-189): the three reads
happen in order and the first failure aborts the rest of the block. -/
def captureCameraGate (h : Host) : List (String × PyVal) :=
  match h.camFilmGate with
  | .error _ => []
  | .ok v1 =>
    let d1 := dinsert [] "displayFilmGate" v1
    match h.camResolution with
    | .error _ => d1
    | .ok v2 =>
      let d2 := dinsert d1 "displayResolution" v2
      match h.camOverscan with
      | .error _ => d2
      | .ok v3 => dinsert d2 "overscan" v3

/-- The display-attribute loop (source lines 201-224): one independent
`try` per attribute. -/
def captureDisplay (h : Host) : List (String × PyVal) :=
  display_attrs.foldl (fun d attr =>
    match h.displayQ attr with
    | .error _ => d
    | .ok v => dinsert d attr v) []

/-- The background `try` block (source lines 226-233): four reads in
order, first failure aborts the rest. -/
def captureBackground (h : Host) : List (String × PyVal) :=
  match h.bgGradient with
  | .error _ => []
  | .ok g =>
    let d1 := dinsert [] "gradient" g
    match h.bgColor with
    | .error _ => d1
    | .ok c =>
      let d2 := dinsert d1 "color" c
      match h.bgTop with
      | .error _ => d2
      | .ok t =>
        let d3 := dinsert d2 "topColor" t
        match h.bgBottom with
        | .error _ => d3
        | .ok b => dinsert d3 "bottomColor" b

/-- The Hardware 2.0 loop (source lines 239-247): one `try` per
attribute; `float3` attributes take the first element of the raw
`getAttr` result. -/
def captureHw2 (h : Host) : List (String × PyVal) :=
  hw2_attrs.foldl (fun d p =>
    let res := match p.snd with
      | .tFloat3 =>
        match h.hwQ p.fst with
        | .error e => Except.error e
        | .ok r => pyIndex r 0
      | _ => h.hwQ p.fst
    match res with
    | .error _ => d
    | .ok v => dinsert d p.fst v) []

/-- `capture_settings` (source lines 166-249): `None` for a falsy
panel, else the snapshot dict in its literal key order, camera sections
filled only when the active camera is truthy. -/
def capture_settings (h : Host) (panel : Option String) (gpuEnabled : Bool) :
    Option PyVal :=
  match panel with
  | none => none
  | some p =>
    if p.isEmpty then none
    else
      let cam := h.activeCamera
      let cg := if !cam.isEmpty then captureCameraGate h else []
      let cm :=
        if !cam.isEmpty then
          match h.camGateMask with
          | .error _ => []
          | .ok v => dinsert [] "displayGateMask" v
        else []
      let cf :=
        if !cam.isEmpty then
          match h.camFilmFit with
          | .error _ => []
          | .ok v => dinsert [] "filmFit" v
        else []
      some (.vDict
        [("panel", .vStr p),
         ("display", .vDict (captureDisplay h)),
         ("background", .vDict (captureBackground h)),
         ("hardware2", .vDict (captureHw2 h)),
         ("plugin_display", .vDict [("gpuCache", .vBool gpuEnabled)]),
         ("camera_gate", .vDict cg),
         ("camera_mask", .vDict cm),
         ("camera_filmfit", .vDict cf)])

/-- Top-level key lookup on a snapshot value (`None` when the value is
not a dict). -/
def pvKey (v : PyVal) (k : String) : Option PyVal :=
  match v with
  | .vDict d => dget d k
  | _ => none

/-- A host oracle on which every attribute read fails, so every section
captures empty. -/
def hostFailAll : Host :=
  ⟨"", .error "f", .error "f", .error "f", .error "f", .error "f",
   fun _ => .error "f", .error "f", .error "f", .error "f", .error "f",
   fun _ => .error "f"⟩


/-- Is an emitter result a success? -/
def emitOk : Except String String → Bool
  | .ok _ => true
  | .error _ => false

/-- Can the three components `v[0] v[1] v[2]` be taken? -/
def triLen3 : PyVal → Bool
  | .vList xs => decide (3 ≤ xs.length)
  | .vStr s => decide (3 ≤ s.toList.length)
  | _ => false

/-- Does `int(v)` succeed? -/
def intOk (v : PyVal) : Bool :=
  match pyToInt v with
  | .ok _ => true
  | .error _ => false

/-- A predicate holding of an optional value when present. -/
def optOk (o : Option PyVal) (p : PyVal → Bool) : Bool :=
  match o with
  | none => true
  | some v => p v

/-- A section that, when present, is a dict. -/
def dictOrAbsent : Option PyVal → Bool
  | none => true
  | some (.vDict _) => true
  | some _ => false

/-- The `display` section is present, a dict, and any `hwFog` entry is
int-coercible (the only display value the emitter does more with than
stringify). -/
def displayOk : Option PyVal → Bool
  | some (.vDict items) =>
    items.all (fun p => p.fst != "hwFog" || intOk p.snd)
  | _ => false

/-- The `background` section, when present, is a dict whose color
entries are 3-indexable, the bottom one only where the gradient gate
reaches it. -/
def bgOk : Option PyVal → Bool
  | none => true
  | some (.vDict bg) =>
    optOk (dget bg "topColor") triLen3
    && optOk (dget bg "color") triLen3
    && (!(match dget bg "gradient" with
          | some g => pyTruthy g
          | none => false)
        || optOk (dget bg "bottomColor") triLen3)
  | some _ => false

/-- The `hardware2` section, when present, is a dict whose list values
are 3-indexable. -/
def hwOk : Option PyVal → Bool
  | none => true
  | some (.vDict items) =>
    items.all (fun p =>
      match p.snd with
      | .vList xs => decide (3 ≤ xs.length)
      | _ => true)
  | some _ => false

/-- Schema well-formedness of a snapshot: exactly the conditions under
which every construct the emitter applies to a value succeeds. -/
def wellFormed (s : Snapshot) : Bool :=
  dictOrAbsent (dget s "camera_gate")
  && dictOrAbsent (dget s "camera_mask")
  && dictOrAbsent (dget s "camera_filmfit")
  && dictOrAbsent (dget s "plugin_display")
  && displayOk (dget s "display")
  && bgOk (dget s "background")
  && hwOk (dget s "hardware2")


/-- The emitted lines of a snapshot, defaulting to `[]` on a raising
input (convenience accessor for stating line-level facts). -/
def melLinesD (s : Snapshot) : List String :=
  match melLines s with
  | .ok l => l
  | .error _ => []


/-- Does `s` start with `pre` (on the char list)? -/
def strStartsWith (s pre : String) : Bool :=
  pre.data.isPrefixOf s.data

/-- The fixed head of the base-background-color write statement. -/
def baseColorStmt : String := "    displayRGBColor \"background\" "

/-- The fixed head of the bottom-background-color write statement. -/
def bottomColorStmt : String := "    displayRGBColor \"backgroundBottom\" "

/-!
## Theorems
-/

mutual
theorem fromJson_toJson : ∀ (v : PyVal), fromJson (toJson v) = v
  | .vBool _ => rfl
  | .vInt _ => rfl
  | .vFloat _ => rfl
  | .vStr _ => rfl
  | .vList xs => by
      simp only [toJson, fromJson]
      rw [fromJson_toJsonList xs]
  | .vDict d => by
      simp only [toJson, fromJson]
      rw [fromJson_toJsonDict d]

theorem fromJson_toJsonList : ∀ (xs : List PyVal),
    fromJsonList (toJsonList xs) = xs
  | [] => rfl
  | v :: vs => by
      simp only [toJsonList, fromJsonList]
      rw [fromJson_toJson v, fromJson_toJsonList vs]

theorem fromJson_toJsonDict : ∀ (ps : List (String × PyVal)),
    fromJsonDict (toJsonDict ps) = ps
  | [] => rfl
  | (k, v) :: ps => by
      simp only [toJsonDict, fromJsonDict]
      rw [fromJson_toJson v, fromJson_toJsonDict ps]
end

/-- When nothing blocks it (something captured, dialog confirmed, name
nonempty, and not the exists-without-confirmation case), `save_preset`
writes the serialized snapshot to `<dir>/<name>.json`. -/
theorem save_preset_writes (fs : FileStore) (dir x name confirm)
    (hx : pyTruthy x = true) (hname : name ≠ "")
    (hg : (fsExists fs (presetPath dir name) && confirm == "No") = false) :
    save_preset fs dir (some x) ⟨"Save", name, confirm⟩
      = (fsWrite fs (presetPath dir name) (toJson x),
         "Preset '" ++ name ++ "' saved") := by
  simp [save_preset, hx, hname, hg]

/-- C1: a Settings Snapshot saved under a name (`save_preset` writing
it as JSON to `<dir>/<name>.json`) and then loaded back (`load_preset`
reading that same file) is reproduced exactly: the loaded snapshot has
the same section/key/value set as the one saved. -/
theorem save_then_load_reproduces_snapshot
    (fs : FileStore) (dir name confirm : String) (x : PyVal)
    (hx : pyTruthy x = true) (hname : name ≠ "")
    (hg : (fsExists fs (presetPath dir name) && confirm == "No") = false) :
    load_preset (save_preset fs dir (some x)
        ⟨"Save", name, confirm⟩).fst dir (some name) = .ok x := by
  rw [save_preset_writes fs dir x name confirm hx hname hg]
  simp [load_preset, fsLookup, fsWrite, fromJson_toJson]

theorem save_then_load_reproduces_snapshot_witness :
    load_preset (save_preset [] "/presets"
        (some (.vDict [("display", .vDict [("wireframe", .vBool true)])]))
        ⟨"Save", "myPreset", "Yes"⟩).fst "/presets" (some "myPreset")
      = .ok (.vDict [("display", .vDict [("wireframe", .vBool true)])]) :=
  save_then_load_reproduces_snapshot [] "/presets" "myPreset" "Yes"
    (.vDict [("display", .vDict [("wireframe", .vBool true)])])
    (by decide) (by decide) (by decide)

/-- C6: saving onto an existing preset name is aborted with no side
effect when the user answers "No" to the overwrite confirmation (the
store and in particular the target file are unchanged), and proceeds
when the user confirms, after which the file holds the serialized
current snapshot. -/
theorem save_preset_existing_name
    (fs : FileStore) (dir x name)
    (hx : pyTruthy x = true) (hname : name ≠ "")
    (hex : fsExists fs (presetPath dir name) = true) :
    (save_preset fs dir (some x) ⟨"Save", name, "No"⟩
        = (fs, "Save cancelled.")
      ∧ fsLookup (save_preset fs dir (some x) ⟨"Save", name, "No"⟩).fst
          (presetPath dir name) = fsLookup fs (presetPath dir name))
    ∧ fsLookup (save_preset fs dir (some x) ⟨"Save", name, "Yes"⟩).fst
        (presetPath dir name) = some (toJson x) := by
  have hno : save_preset fs dir (some x) ⟨"Save", name, "No"⟩
      = (fs, "Save cancelled.") := by
    simp [save_preset, hx, hname, hex]
  refine ⟨⟨hno, by rw [hno]⟩, ?_⟩
  rw [save_preset_writes fs dir x name "Yes" hx hname (by simp [hex])]
  simp [fsLookup, fsWrite]

theorem save_preset_existing_name_witness :
    (save_preset [("/p/a.json", .jObj [])] "/p"
        (some (.vDict [("display", .vDict [])])) ⟨"Save", "a", "No"⟩
        = ([("/p/a.json", .jObj [])], "Save cancelled.")
      ∧ fsLookup (save_preset [("/p/a.json", .jObj [])] "/p"
          (some (.vDict [("display", .vDict [])])) ⟨"Save", "a", "No"⟩).fst
          "/p/a.json" = fsLookup [("/p/a.json", .jObj [])] "/p/a.json")
    ∧ fsLookup (save_preset [("/p/a.json", .jObj [])] "/p"
        (some (.vDict [("display", .vDict [])])) ⟨"Save", "a", "Yes"⟩).fst
        "/p/a.json" = some (toJson (.vDict [("display", .vDict [])])) := by
  have h := save_preset_existing_name [("/p/a.json", .jObj [])] "/p"
    (.vDict [("display", .vDict [])]) "a" (by decide) (by decide) (by decide)
  simpa [presetPath] using h

/-- C7: `settings_to_mel` on a null/absent snapshot returns the fixed
placeholder string and no error. -/
theorem settings_to_mel_none :
    settings_to_mel none = .ok "// No settings captured" := rfl

/-- C8: `settings_to_mel` is deterministic: two evaluations on the same
snapshot yield the same result (the embedding is a pure function of the
snapshot alone, mirroring that the source reads no state besides its
argument). -/
theorem settings_to_mel_deterministic (s : Option Snapshot)
    (r₁ r₂ : Except String String)
    (h₁ : settings_to_mel s = r₁) (h₂ : settings_to_mel s = r₂) : r₁ = r₂ := by
  rw [← h₁, ← h₂]

theorem settings_to_mel_deterministic_witness :
    (Except.ok "// No settings captured" : Except String String)
      = .ok "// No settings captured" :=
  settings_to_mel_deterministic none _ _ rfl rfl

theorem strEndsWith_append (n : String) :
    strEndsWith (n ++ ".json") ".json" = true := by
  simp [strEndsWith, List.reverse_append]

theorem pyDropLast_append (n : String) : pyDropLast (n ++ ".json") 5 = n := by
  apply String.ext
  show ((n ++ ".json").data.take ((n ++ ".json").data.length - 5)) = n.data
  rw [String.data_append, List.length_append]
  show (n.data ++ ['.', 'j', 's', 'o', 'n']).take (n.data.length + 5 - 5) = n.data
  rw [Nat.add_sub_cancel, List.take_left]

theorem strEndsWith_decomp (f : String) (h : strEndsWith f ".json" = true) :
    pyDropLast f 5 ++ ".json" = f := by
  unfold strEndsWith at h
  rw [List.isPrefixOf_iff_prefix] at h
  have h2 : (".json" : String).data <:+ f.data := List.reverse_prefix.mp h
  obtain ⟨pre, hpre⟩ := h2
  apply String.ext
  rw [String.data_append]
  show (f.data.take (f.data.length - 5)) ++ (".json" : String).data = f.data
  rw [← hpre, List.length_append]
  show (pre ++ _).take (pre.length + 5 - 5) ++ _ = _
  rw [Nat.add_sub_cancel, List.take_left]

/-- C9: the preset listing is a pure recomputation from the directory
contents: it is sorted, it is (as a multiset) exactly the `.json` file
names with the suffix stripped, a name appears in it exactly when
`<name>.json` is among the files, and a missing directory lists
nothing. -/
theorem refresh_preset_list_spec (files : List String) :
    (refresh_preset_list (some files)).Sorted (· ≤ ·)
    ∧ (refresh_preset_list (some files)).Perm
        ((files.filter (fun f => strEndsWith f ".json")).map
          (fun f => pyDropLast f 5))
    ∧ (∀ n : String,
        n ∈ refresh_preset_list (some files) ↔ (n ++ ".json") ∈ files)
    ∧ refresh_preset_list none = [] := by
  refine ⟨?_, ?_, ?_, rfl⟩
  · simp only [refresh_preset_list]
    exact List.sorted_insertionSort _ _
  · simp only [refresh_preset_list]
    exact List.perm_insertionSort _ _
  · intro n
    simp only [refresh_preset_list, List.mem_insertionSort, List.mem_map,
      List.mem_filter]
    constructor
    · rintro ⟨f, ⟨hf, he⟩, rfl⟩
      rw [strEndsWith_decomp f he]
      exact hf
    · intro hmem
      exact ⟨n ++ ".json", ⟨hmem, strEndsWith_append n⟩, pyDropLast_append n⟩

/-- C10: whenever `capture_settings` returns a snapshot, that snapshot
carries a top-level `panel` key recording the source panel and a
`plugin_display` section whose single key is `gpuCache`, alongside the
seven documented sections; and saving such a snapshot stores a JSON
document that carries those same extra entries. -/
theorem capture_settings_extra_entries (h : Host) (p : String)
    (flag : Bool) (snap : PyVal) (fs : FileStore) (dir name confirm : String)
    (hc : capture_settings h (some p) flag = some snap)
    (hname : name ≠ "")
    (hg : (fsExists fs (presetPath dir name) && confirm == "No") = false) :
    pvKey snap "panel" = some (.vStr p)
    ∧ pvKey snap "plugin_display" = some (.vDict [("gpuCache", .vBool flag)])
    ∧ (pvKey snap "display").isSome = true
    ∧ (pvKey snap "background").isSome = true
    ∧ (pvKey snap "hardware2").isSome = true
    ∧ (pvKey snap "camera_gate").isSome = true
    ∧ (pvKey snap "camera_mask").isSome = true
    ∧ (pvKey snap "camera_filmfit").isSome = true
    ∧ jHasKey (toJson snap) "panel" = true
    ∧ jHasKey (toJson snap) "plugin_display" = true
    ∧ fsLookup (save_preset fs dir (some snap)
          ⟨"Save", name, confirm⟩).fst (presetPath dir name)
        = some (toJson snap) := by
  by_cases hp : p.isEmpty
  · exact absurd hc (by simp [capture_settings, hp])
  · rw [capture_settings] at hc
    simp only [hp, Bool.false_eq_true, if_false] at hc
    obtain rfl : PyVal.vDict _ = snap := Option.some_injective _ hc
    refine ⟨by simp [pvKey, dget], by simp [pvKey, dget], by simp [pvKey, dget],
      by simp [pvKey, dget], by simp [pvKey, dget], by simp [pvKey, dget],
      by simp [pvKey, dget], by simp [pvKey, dget],
      by simp [toJson, toJsonDict, jHasKey],
      by simp [toJson, toJsonDict, jHasKey], ?_⟩
    rw [save_preset_writes fs dir _ name confirm (by rfl) hname hg]
    simp [fsLookup, fsWrite]

theorem capture_settings_extra_entries_witness :
    pvKey (.vDict [("panel", .vStr "modelPanel4"),
        ("display", .vDict []), ("background", .vDict []),
        ("hardware2", .vDict []),
        ("plugin_display", .vDict [("gpuCache", .vBool true)]),
        ("camera_gate", .vDict []), ("camera_mask", .vDict []),
        ("camera_filmfit", .vDict [])]) "panel" = some (.vStr "modelPanel4")
    ∧ pvKey (.vDict [("panel", .vStr "modelPanel4"),
        ("display", .vDict []), ("background", .vDict []),
        ("hardware2", .vDict []),
        ("plugin_display", .vDict [("gpuCache", .vBool true)]),
        ("camera_gate", .vDict []), ("camera_mask", .vDict []),
        ("camera_filmfit", .vDict [])]) "plugin_display"
      = some (.vDict [("gpuCache", .vBool true)])
    ∧ (pvKey (.vDict [("panel", .vStr "modelPanel4"),
        ("display", .vDict []), ("background", .vDict []),
        ("hardware2", .vDict []),
        ("plugin_display", .vDict [("gpuCache", .vBool true)]),
        ("camera_gate", .vDict []), ("camera_mask", .vDict []),
        ("camera_filmfit", .vDict [])]) "display").isSome = true
    ∧ (pvKey (.vDict [("panel", .vStr "modelPanel4"),
        ("display", .vDict []), ("background", .vDict []),
        ("hardware2", .vDict []),
        ("plugin_display", .vDict [("gpuCache", .vBool true)]),
        ("camera_gate", .vDict []), ("camera_mask", .vDict []),
        ("camera_filmfit", .vDict [])]) "background").isSome = true
    ∧ (pvKey (.vDict [("panel", .vStr "modelPanel4"),
        ("display", .vDict []), ("background", .vDict []),
        ("hardware2", .vDict []),
        ("plugin_display", .vDict [("gpuCache", .vBool true)]),
        ("camera_gate", .vDict []), ("camera_mask", .vDict []),
        ("camera_filmfit", .vDict [])]) "hardware2").isSome = true
    ∧ (pvKey (.vDict [("panel", .vStr "modelPanel4"),
        ("display", .vDict []), ("background", .vDict []),
        ("hardware2", .vDict []),
        ("plugin_display", .vDict [("gpuCache", .vBool true)]),
        ("camera_gate", .vDict []), ("camera_mask", .vDict []),
        ("camera_filmfit", .vDict [])]) "camera_gate").isSome = true
    ∧ (pvKey (.vDict [("panel", .vStr "modelPanel4"),
        ("display", .vDict []), ("background", .vDict []),
        ("hardware2", .vDict []),
        ("plugin_display", .vDict [("gpuCache", .vBool true)]),
        ("camera_gate", .vDict []), ("camera_mask", .vDict []),
        ("camera_filmfit", .vDict [])]) "camera_mask").isSome = true
    ∧ (pvKey (.vDict [("panel", .vStr "modelPanel4"),
        ("display", .vDict []), ("background", .vDict []),
        ("hardware2", .vDict []),
        ("plugin_display", .vDict [("gpuCache", .vBool true)]),
        ("camera_gate", .vDict []), ("camera_mask", .vDict []),
        ("camera_filmfit", .vDict [])]) "camera_filmfit").isSome = true
    ∧ jHasKey (toJson (.vDict [("panel", .vStr "modelPanel4"),
        ("display", .vDict []), ("background", .vDict []),
        ("hardware2", .vDict []),
        ("plugin_display", .vDict [("gpuCache", .vBool true)]),
        ("camera_gate", .vDict []), ("camera_mask", .vDict []),
        ("camera_filmfit", .vDict [])])) "panel" = true
    ∧ jHasKey (toJson (.vDict [("panel", .vStr "modelPanel4"),
        ("display", .vDict []), ("background", .vDict []),
        ("hardware2", .vDict []),
        ("plugin_display", .vDict [("gpuCache", .vBool true)]),
        ("camera_gate", .vDict []), ("camera_mask", .vDict []),
        ("camera_filmfit", .vDict [])])) "plugin_display" = true
    ∧ fsLookup (save_preset [] "/p" (some (.vDict [("panel", .vStr "modelPanel4"),
        ("display", .vDict []), ("background", .vDict []),
        ("hardware2", .vDict []),
        ("plugin_display", .vDict [("gpuCache", .vBool true)]),
        ("camera_gate", .vDict []), ("camera_mask", .vDict []),
        ("camera_filmfit", .vDict [])]))
          ⟨"Save", "a", "Yes"⟩).fst (presetPath "/p" "a")
        = some (toJson (.vDict [("panel", .vStr "modelPanel4"),
        ("display", .vDict []), ("background", .vDict []),
        ("hardware2", .vDict []),
        ("plugin_display", .vDict [("gpuCache", .vBool true)]),
        ("camera_gate", .vDict []), ("camera_mask", .vDict []),
        ("camera_filmfit", .vDict [])])) :=
  capture_settings_extra_entries hostFailAll "modelPanel4" true _ [] "/p" "a" "Yes"
    (by rfl) (by decide) (by decide)

theorem seqLines_ok : ∀ (xs : List (Except String (List String))),
    (∀ x ∈ xs, ∃ l, x = .ok l) → ∃ l, seqLines xs = .ok l
  | [], _ => ⟨[], rfl⟩
  | x :: xs, h => by
    obtain ⟨l, hl⟩ := h x (by simp)
    obtain ⟨ls, hls⟩ := seqLines_ok xs (fun y hy => h y (by simp [hy]))
    subst hl
    refine ⟨l ++ ls, ?_⟩
    simp only [seqLines, hls]

theorem sectLines_dict_ok (cg : List (String × PyVal)) (key : String)
    (mk : PyVal → Except String (List String))
    (hmk : ∀ v, dget cg key = some v → ∃ l, mk v = .ok l) :
    ∃ l, sectLines (.vDict cg) key mk = .ok l := by
  unfold sectLines
  simp only [pyContains]
  cases h : dmem cg key
  · exact ⟨[], rfl⟩
  · obtain ⟨v, hv⟩ : ∃ v, dget cg key = some v := by
      unfold dmem at h
      exact Option.isSome_iff_exists.mp h
    obtain ⟨l, hl⟩ := hmk v hv
    have hsub : pySubscript (.vDict cg) key = .ok v := by
      simp only [pySubscript, hv]
    rw [hsub]
    exact ⟨l, hl⟩

theorem emitItems_ok (f : String → PyVal → Except String (List String)) :
    ∀ (items : List (String × PyVal)),
    (∀ p ∈ items, ∃ l, f p.fst p.snd = .ok l) →
    ∃ l, emitItems f items = .ok l
  | [], _ => ⟨[], rfl⟩
  | (k, v) :: rest, h => by
    obtain ⟨l, hl⟩ := h (k, v) (by simp)
    obtain ⟨ls, hls⟩ := emitItems_ok f rest (fun p hp => h p (by simp [hp]))
    have hl' : f k v = .ok l := hl
    refine ⟨l ++ ls, ?_⟩
    simp only [emitItems, hl', hls]

theorem displayAttrLines_ok (attr : String) (v : PyVal)
    (hfog : attr = "hwFog" → intOk v = true) :
    ∃ l, displayAttrLines attr v = .ok l := by
  by_cases h : attr = "hwFog"
  · have hint := hfog h
    subst h
    unfold displayAttrLines
    unfold intOk at hint
    simp only [beq_self_eq_true, if_true]
    cases hn : pyToInt v
    · rw [hn] at hint
      exact absurd hint (by simp)
    · exact ⟨_, rfl⟩
  · unfold displayAttrLines
    rw [if_neg (by simpa using h)]
    repeat' split
    all_goals exact ⟨_, rfl⟩

theorem colorLine_ok (name : String) (v : PyVal) (hv : triLen3 v = true) :
    ∃ l, colorLine name v = .ok l := by
  match v with
  | .vList (a :: b :: c :: rest) => exact ⟨_, rfl⟩
  | .vList [] => exact absurd hv (by simp [triLen3])
  | .vList [a] => exact absurd hv (by simp [triLen3])
  | .vList [a, b] => exact absurd hv (by simp [triLen3])
  | .vStr s =>
    have hlen : 3 ≤ s.toList.length := by simpa [triLen3] using hv
    match hl : s.toList, hlen with
    | a :: b :: c :: rest, _ =>
      have h0 : pyIndex (.vStr s) 0 = .ok (.vStr (String.mk [a])) := by
        show (match s.toList.get? 0 with
          | some c => Except.ok (PyVal.vStr (String.mk [c]))
          | none => Except.error "IndexError: string index out of range") = _
        rw [hl]
        rfl
      have h1 : pyIndex (.vStr s) 1 = .ok (.vStr (String.mk [b])) := by
        show (match s.toList.get? 1 with
          | some c => Except.ok (PyVal.vStr (String.mk [c]))
          | none => Except.error "IndexError: string index out of range") = _
        rw [hl]
        rfl
      have h2 : pyIndex (.vStr s) 2 = .ok (.vStr (String.mk [c])) := by
        show (match s.toList.get? 2 with
          | some c => Except.ok (PyVal.vStr (String.mk [c]))
          | none => Except.error "IndexError: string index out of range") = _
        rw [hl]
        rfl
      unfold colorLine
      rw [h0, h1, h2]
      exact ⟨_, rfl⟩
  | .vBool _ => exact absurd hv (by simp [triLen3])
  | .vInt _ => exact absurd hv (by simp [triLen3])
  | .vFloat _ => exact absurd hv (by simp [triLen3])
  | .vDict _ => exact absurd hv (by simp [triLen3])

theorem bottomPart_ok (bg : List (String × PyVal))
    (hb : (!(match dget bg "gradient" with
            | some g => pyTruthy g
            | none => false)
          || optOk (dget bg "bottomColor") triLen3) = true) :
    ∃ l, bottomPart (.vDict bg) = .ok l := by
  unfold bottomPart
  cases hg : (match dget bg "gradient" with
              | some g => pyTruthy g
              | none => false)
  · simp only [hg, Bool.false_eq_true, if_false]
    exact ⟨[], rfl⟩
  · rw [hg] at hb
    simp only [Bool.not_true, Bool.false_or] at hb
    simp only [hg, if_true]
    cases hm : dmem bg "bottomColor"
    · simp only [Bool.false_eq_true, if_false]
      exact ⟨[], rfl⟩
    · obtain ⟨v, hv⟩ : ∃ v, dget bg "bottomColor" = some v := by
        unfold dmem at hm
        exact Option.isSome_iff_exists.mp hm
      rw [hv] at hb
      obtain ⟨l, hl⟩ := colorLine_ok "backgroundBottom" v
        (by simpa [optOk] using hb)
      have hsub : pySubscript (.vDict bg) "bottomColor" = .ok v := by
        simp only [pySubscript, hv]
      simp only [if_true, hsub, hl]
      exact ⟨l, rfl⟩

theorem gpuBlock_ok (s : Snapshot)
    (h : dictOrAbsent (dget s "plugin_display") = true) :
    ∃ l, gpuBlock s = .ok l := by
  unfold gpuBlock
  cases hd : dget s "plugin_display" with
  | none => exact ⟨_, rfl⟩
  | some v =>
    rw [hd] at h
    match v with
    | .vDict pd => exact ⟨_, rfl⟩
    | .vBool _ => exact absurd h (by simp [dictOrAbsent])
    | .vInt _ => exact absurd h (by simp [dictOrAbsent])
    | .vFloat _ => exact absurd h (by simp [dictOrAbsent])
    | .vStr _ => exact absurd h (by simp [dictOrAbsent])
    | .vList _ => exact absurd h (by simp [dictOrAbsent])

theorem cameraGateLines_ok (s : Snapshot)
    (h : dictOrAbsent (dget s "camera_gate") = true) :
    ∃ l, cameraGateLines s = .ok l := by
  unfold cameraGateLines
  cases hd : dget s "camera_gate" with
  | none => exact ⟨[], rfl⟩
  | some v =>
    rw [hd] at h
    match v with
    | .vDict cg =>
      have hmem : ∀ x ∈ [sectLines (.vDict cg) "displayFilmGate" mkFilmGateLine,
          sectLines (.vDict cg) "displayResolution" mkResolutionLine,
          sectLines (.vDict cg) "overscan" mkOverscanLine], ∃ l, x = .ok l := by
        intro x hx
        simp only [List.mem_cons, List.not_mem_nil, or_false] at hx
        rcases hx with rfl | rfl | rfl
        · exact sectLines_dict_ok cg "displayFilmGate" mkFilmGateLine (fun v _ => ⟨_, rfl⟩)
        · exact sectLines_dict_ok cg "displayResolution" mkResolutionLine (fun v _ => ⟨_, rfl⟩)
        · exact sectLines_dict_ok cg "overscan" mkOverscanLine (fun v _ => ⟨_, rfl⟩)
      exact seqLines_ok _ hmem
    | .vBool _ => exact absurd h (by simp [dictOrAbsent])
    | .vInt _ => exact absurd h (by simp [dictOrAbsent])
    | .vFloat _ => exact absurd h (by simp [dictOrAbsent])
    | .vStr _ => exact absurd h (by simp [dictOrAbsent])
    | .vList _ => exact absurd h (by simp [dictOrAbsent])

theorem cameraMaskLines_ok (s : Snapshot)
    (h : dictOrAbsent (dget s "camera_mask") = true) :
    ∃ l, cameraMaskLines s = .ok l := by
  unfold cameraMaskLines
  cases hd : dget s "camera_mask" with
  | none => exact ⟨[], rfl⟩
  | some v =>
    rw [hd] at h
    match v with
    | .vDict cm =>
      exact sectLines_dict_ok cm "displayGateMask" mkGateMaskLine (fun v _ => ⟨_, rfl⟩)
    | .vBool _ => exact absurd h (by simp [dictOrAbsent])
    | .vInt _ => exact absurd h (by simp [dictOrAbsent])
    | .vFloat _ => exact absurd h (by simp [dictOrAbsent])
    | .vStr _ => exact absurd h (by simp [dictOrAbsent])
    | .vList _ => exact absurd h (by simp [dictOrAbsent])

theorem cameraFilmfitLines_ok (s : Snapshot)
    (h : dictOrAbsent (dget s "camera_filmfit") = true) :
    ∃ l, cameraFilmfitLines s = .ok l := by
  unfold cameraFilmfitLines
  cases hd : dget s "camera_filmfit" with
  | none => exact ⟨[], rfl⟩
  | some v =>
    rw [hd] at h
    match v with
    | .vDict cf =>
      exact sectLines_dict_ok cf "filmFit" mkFilmFitLine (fun v _ => ⟨_, rfl⟩)
    | .vBool _ => exact absurd h (by simp [dictOrAbsent])
    | .vInt _ => exact absurd h (by simp [dictOrAbsent])
    | .vFloat _ => exact absurd h (by simp [dictOrAbsent])
    | .vStr _ => exact absurd h (by simp [dictOrAbsent])
    | .vList _ => exact absurd h (by simp [dictOrAbsent])

theorem displayLines_ok (s : Snapshot)
    (h : displayOk (dget s "display") = true) :
    ∃ l, displayLines s = .ok l := by
  unfold displayLines
  cases hd : dget s "display" with
  | none => rw [hd] at h; exact absurd h (by simp [displayOk])
  | some v =>
    rw [hd] at h
    have hsub : pySubscript (.vDict s) "display" = .ok v := by
      simp only [pySubscript, hd]
    rw [hsub]
    match v with
    | .vDict items =>
      apply emitItems_ok
      intro p hp
      apply displayAttrLines_ok
      intro hfst
      unfold displayOk at h
      have hall := List.all_eq_true.mp h p hp
      rw [hfst] at hall
      simpa using hall
    | .vBool _ => exact absurd h (by simp [displayOk])
    | .vInt _ => exact absurd h (by simp [displayOk])
    | .vFloat _ => exact absurd h (by simp [displayOk])
    | .vStr _ => exact absurd h (by simp [displayOk])
    | .vList _ => exact absurd h (by simp [displayOk])

theorem backgroundLines_ok (s : Snapshot)
    (h : bgOk (dget s "background") = true) :
    ∃ l, backgroundLines s = .ok l := by
  unfold backgroundLines
  cases hd : dget s "background" with
  | none => exact ⟨[], rfl⟩
  | some v =>
    rw [hd] at h
    match v with
    | .vDict bg =>
      unfold bgOk at h
      simp only [Bool.and_eq_true] at h
      obtain ⟨⟨htop, hcol⟩, hbot⟩ := h
      have hmem : ∀ x ∈ [sectLines (.vDict bg) "gradient" mkGradientLine,
          sectLines (.vDict bg) "topColor" (colorLine "backgroundTop"),
          sectLines (.vDict bg) "color" (colorLine "background"),
          bottomPart (.vDict bg)], ∃ l, x = .ok l := by
        intro x hx
        simp only [List.mem_cons, List.not_mem_nil, or_false] at hx
        rcases hx with rfl | rfl | rfl | rfl
        · exact sectLines_dict_ok bg "gradient" mkGradientLine (fun v _ => ⟨_, rfl⟩)
        · refine sectLines_dict_ok bg "topColor" (colorLine "backgroundTop") ?_
          intro v hv
          refine colorLine_ok "backgroundTop" v ?_
          rw [hv] at htop
          simpa [optOk] using htop
        · refine sectLines_dict_ok bg "color" (colorLine "background") ?_
          intro v hv
          refine colorLine_ok "background" v ?_
          rw [hv] at hcol
          simpa [optOk] using hcol
        · exact bottomPart_ok bg hbot
      obtain ⟨l, hl⟩ := seqLines_ok _ hmem
      refine ⟨"" :: "    // Background Settings" :: l, ?_⟩
      show (match seqLines
          [sectLines (.vDict bg) "gradient" mkGradientLine,
           sectLines (.vDict bg) "topColor" (colorLine "backgroundTop"),
           sectLines (.vDict bg) "color" (colorLine "background"),
           bottomPart (.vDict bg)] with
        | Except.error e => Except.error e
        | Except.ok l => Except.ok ("" :: "    // Background Settings" :: l))
        = Except.ok ("" :: "    // Background Settings" :: l)
      rw [hl]
    | .vBool _ => exact absurd h (by simp [bgOk])
    | .vInt _ => exact absurd h (by simp [bgOk])
    | .vFloat _ => exact absurd h (by simp [bgOk])
    | .vStr _ => exact absurd h (by simp [bgOk])
    | .vList _ => exact absurd h (by simp [bgOk])

theorem hw2AttrLines_ok (attr : String) (v : PyVal)
    (h : (match v with
          | .vList xs => decide (3 ≤ xs.length)
          | _ => true) = true) :
    ∃ l, hw2AttrLines attr v = .ok l := by
  match v with
  | .vBool b => exact ⟨_, rfl⟩
  | .vInt _ => exact ⟨_, rfl⟩
  | .vFloat _ => exact ⟨_, rfl⟩
  | .vStr _ => exact ⟨_, rfl⟩
  | .vDict _ => exact ⟨_, rfl⟩
  | .vList (a :: b :: c :: rest) => exact ⟨_, rfl⟩
  | .vList [] => exact absurd h (by simp)
  | .vList [a] => exact absurd h (by simp)
  | .vList [a, b] => exact absurd h (by simp)

theorem hardware2Lines_ok (s : Snapshot)
    (h : hwOk (dget s "hardware2") = true) :
    ∃ l, hardware2Lines s = .ok l := by
  unfold hardware2Lines
  cases hd : dget s "hardware2" with
  | none => exact ⟨[], rfl⟩
  | some v =>
    rw [hd] at h
    match v with
    | .vDict items =>
      have hall : ∀ p ∈ items, ∃ l, hw2AttrLines p.fst p.snd = .ok l := by
        intro p hp
        apply hw2AttrLines_ok
        unfold hwOk at h
        exact List.all_eq_true.mp h p hp
      obtain ⟨l, hl⟩ := emitItems_ok hw2AttrLines items hall
      refine ⟨["", "    // Hardware 2.0 Settings",
          "    if (!`objExists \"hardwareRenderingGlobals\"`) \x7b",
          "        createNode \"hardwareRenderingGlobals\";",
          "    \x7d"] ++ l, ?_⟩
      show (match emitItems hw2AttrLines items with
        | Except.error e => Except.error e
        | Except.ok l => Except.ok
            (["", "    // Hardware 2.0 Settings",
              "    if (!`objExists \"hardwareRenderingGlobals\"`) \x7b",
              "        createNode \"hardwareRenderingGlobals\";",
              "    \x7d"] ++ l)) = _
      rw [hl]
    | .vBool _ => exact absurd h (by simp [hwOk])
    | .vInt _ => exact absurd h (by simp [hwOk])
    | .vFloat _ => exact absurd h (by simp [hwOk])
    | .vStr _ => exact absurd h (by simp [hwOk])
    | .vList _ => exact absurd h (by simp [hwOk])

/-- C4 (amended): `settings_to_mel` reads no host state and returns a
string without raising on a null/absent snapshot and on every
schema-well-formed mapping — one whose sections are dicts, which
contains a `display` section, and whose values fit the shapes the
emitter destructures.  (It is not total on arbitrary mappings: a
truthy mapping without a `display` section raises, see the
counterexample.) -/
theorem settings_to_mel_total (s : Snapshot)
    (hwf : s.isEmpty = true ∨ wellFormed s = true) :
    settings_to_mel none = .ok "// No settings captured"
    ∧ emitOk (settings_to_mel (some s)) = true := by
  refine ⟨rfl, ?_⟩
  rcases hwf with he | hw
  · have hnil : s = [] := by
      cases s with
      | nil => rfl
      | cons a l => simp at he
    subst hnil
    rfl
  · unfold wellFormed at hw
    simp only [Bool.and_eq_true] at hw
    obtain ⟨⟨⟨⟨⟨⟨h1, h2⟩, h3⟩, h4⟩, h5⟩, h6⟩, h7⟩ := hw
    obtain ⟨cg, hcg⟩ := cameraGateLines_ok s h1
    obtain ⟨cm, hcm⟩ := cameraMaskLines_ok s h2
    obtain ⟨cf, hcf⟩ := cameraFilmfitLines_ok s h3
    obtain ⟨g, hg⟩ := gpuBlock_ok s h4
    obtain ⟨dl, hdl⟩ := displayLines_ok s h5
    obtain ⟨bgl, hbgl⟩ := backgroundLines_ok s h6
    obtain ⟨hwl, hhwl⟩ := hardware2Lines_ok s h7
    have hne : s.isEmpty = false := by
      cases s with
      | nil =>
        rw [show dget [] "display" = none from rfl] at h5
        exact absurd h5 (by simp [displayOk])
      | cons a l => rfl
    simp only [settings_to_mel, melLines, hne, hcg, hcm, hcf, hg, hdl,
      hbgl, hhwl, Bool.false_eq_true, if_false]
    rfl

/-- C4 counterexample: on a truthy mapping that merely misses the
`display` section, `settings_to_mel` raises (the source reads
`settings['display']` unguarded), contradicting totality over all
mappings. -/
theorem settings_to_mel_missing_display_raises :
    settings_to_mel (some [("camera_gate", .vDict [])])
      = .error "KeyError: display" := rfl

theorem settings_to_mel_total_witness :
    settings_to_mel none = .ok "// No settings captured"
    ∧ emitOk (settings_to_mel (some [("display",
        .vDict [("wireframe", .vBool true)])])) = true :=
  settings_to_mel_total [("display", .vDict [("wireframe", .vBool true)])]
    (Or.inr (by decide))

/-- The general display-loop branch: every attribute other than the
`hwFog` and the two string-formatted ones renders a boolean as the
lowercase literal. -/
theorem displayAttr_bool_branch (attr : String) (b : Bool)
    (h1 : attr ≠ "hwFog") (h2 : attr ≠ "displayLights")
    (h3 : attr ≠ "displayAppearance") :
    displayAttrLines attr (.vBool b)
      = .ok ["    modelEditor -e -" ++ attr ++ " "
          ++ (if b then "true" else "false") ++ " $panel;"] := by
  unfold displayAttrLines
  rw [if_neg (by simpa using h1)]
  by_cases hf : attr = "fogging"
  · subst hf
    cases b <;> rfl
  · rw [if_neg (by simpa using hf)]
    rw [if_neg (by simp [h2, h3])]
    by_cases ht : attr = "twoSidedLighting"
    · subst ht
      cases b <;> rfl
    · rw [if_neg (by simpa using ht)]
      by_cases hs : attr = "shadows"
      · subst hs
        cases b <;> rfl
      · rw [if_neg (by simpa using hs)]
        by_cases hj : attr = "jointXray"
        · subst hj
          cases b <;> rfl
        · rw [if_neg (by simpa using hj)]
          by_cases ha : attr = "activeComponentsXray"
          · subst ha
            cases b <;> rfl
          · rw [if_neg (by simpa using ha)]
            cases b <;> rfl

/-- C3 (amended): boolean-valued settings are rendered as the lowercase
MEL literal in the camera sections, the plugin flag, the display flags
(where `hwFog` additionally mirrors the flag as an integer `setAttr`)
and the background gradient — but in the hardware2 section booleans are
first coerced to `int` and rendered as `1`/`0`; triples are rendered as
three space-separated components. -/
theorem bool_and_triple_rendering :
    (∀ b : Bool, mkFilmGateLine (.vBool b)
        = .ok ["        camera -e -displayFilmGate "
            ++ (if b then "true" else "false") ++ " $camera;"])
    ∧ (∀ b : Bool, mkResolutionLine (.vBool b)
        = .ok ["        camera -e -displayResolution "
            ++ (if b then "true" else "false") ++ " $camera;"])
    ∧ (∀ b : Bool, mkGateMaskLine (.vBool b)
        = .ok ["        camera -e -displayGateMask "
            ++ (if b then "true" else "false") ++ " $camera;"])
    ∧ (∀ (s : Snapshot) (pd : List (String × PyVal)) (b : Bool),
        dget s "plugin_display" = some (.vDict pd) →
        dget pd "gpuCache" = some (.vBool b) →
        gpuBlock s = .ok
          ["    // GPU Cache Settings",
           "    if (!`pluginInfo -q -loaded \"gpuCache\"`)",
           "    \x7b",
           "        loadPlugin \"gpuCache\";",
           "    \x7d",
           "    modelEditor -e -pluginObjects gpuCacheDisplayFilter "
             ++ (if b then "true" else "false") ++ " $panel;",
           ""])
    ∧ (∀ (attr : String) (b : Bool), attr ≠ "hwFog" →
        attr ≠ "displayLights" → attr ≠ "displayAppearance" →
        displayAttrLines attr (.vBool b)
          = .ok ["    modelEditor -e -" ++ attr ++ " "
              ++ (if b then "true" else "false") ++ " $panel;"])
    ∧ (∀ b : Bool, displayAttrLines "hwFog" (.vBool b)
        = .ok ["    modelEditor -e -hwFog "
                 ++ (if b then "true" else "false") ++ " $panel;",
               "    if (!`objExists \"hardwareRenderingGlobals\"`) \x7b",
               "        createNode \"hardwareRenderingGlobals\";",
               "    \x7d",
               "    setAttr \"hardwareRenderingGlobals.hwFogEnable\" "
                 ++ (if b then "1" else "0") ++ ";"])
    ∧ (∀ b : Bool, mkGradientLine (.vBool b)
        = .ok ["    displayPref -displayGradient "
            ++ (if b then "true" else "false") ++ ";"])
    ∧ (∀ (attr : String) (b : Bool), hw2AttrLines attr (.vBool b)
        = .ok ["    setAttr \"hardwareRenderingGlobals." ++ attr ++ "\" "
            ++ (if b then "1" else "0") ++ ";"])
    ∧ (∀ (name : String) (x y z : PyVal) (rest : List PyVal),
        colorLine name (.vList (x :: y :: z :: rest))
          = .ok ["    displayRGBColor \"" ++ name ++ "\" " ++ pyStr x ++ " "
              ++ pyStr y ++ " " ++ pyStr z ++ ";"])
    ∧ (∀ (attr : String) (x y z : PyVal) (rest : List PyVal),
        hw2AttrLines attr (.vList (x :: y :: z :: rest))
          = .ok ["    setAttr \"hardwareRenderingGlobals." ++ attr
              ++ "\" -type double3 " ++ pyStr x ++ " " ++ pyStr y ++ " "
              ++ pyStr z ++ ";"]) := by
  refine ⟨?_, ?_, ?_, ?_, ?_, ?_, ?_, ?_, ?_, ?_⟩
  · intro b; cases b <;> rfl
  · intro b; cases b <;> rfl
  · intro b; cases b <;> rfl
  · intro s pd b hs hpd
    unfold gpuBlock
    rw [hs]
    show (match (Except.ok ((dget pd "gpuCache").getD (.vBool false))
        : Except String PyVal) with
      | Except.error e => Except.error e
      | Except.ok v => Except.ok
          ["    // GPU Cache Settings",
           "    if (!`pluginInfo -q -loaded \"gpuCache\"`)",
           "    \x7b",
           "        loadPlugin \"gpuCache\";",
           "    \x7d",
           "    modelEditor -e -pluginObjects gpuCacheDisplayFilter "
             ++ strLower (pyStr v) ++ " $panel;",
           ""]) = _
    rw [hpd]
    cases b <;> rfl
  · exact displayAttr_bool_branch
  · intro b; cases b <;> rfl
  · intro b; cases b <;> rfl
  · intro attr b; cases b <;> rfl
  · intro name x y z rest; rfl
  · intro attr x y z rest; rfl

theorem bool_and_triple_rendering_witness :
    displayAttrLines "wireframe" (.vBool true)
      = .ok ["    modelEditor -e -" ++ "wireframe" ++ " "
          ++ (if true then "true" else "false") ++ " $panel;"]
    ∧ hw2AttrLines "ssaoEnable" (.vBool false)
      = .ok ["    setAttr \"hardwareRenderingGlobals." ++ "ssaoEnable"
          ++ "\" " ++ (if false then "1" else "0") ++ ";"]
    ∧ gpuBlock [("plugin_display", .vDict [("gpuCache", .vBool true)])]
      = .ok
        ["    // GPU Cache Settings",
         "    if (!`pluginInfo -q -loaded \"gpuCache\"`)",
         "    \x7b",
         "        loadPlugin \"gpuCache\";",
         "    \x7d",
         "    modelEditor -e -pluginObjects gpuCacheDisplayFilter "
           ++ (if true then "true" else "false") ++ " $panel;",
         ""] := by
  obtain ⟨c1, c2, c3, c4, c5, c6, c7, c8, c9, c10⟩ := bool_and_triple_rendering
  exact ⟨c5 "wireframe" true (by decide) (by decide) (by decide),
    c8 "ssaoEnable" false,
    c4 [("plugin_display", .vDict [("gpuCache", .vBool true)])]
      [("gpuCache", .vBool true)] true rfl rfl⟩

/-- C3 counterexample: a `True` boolean in the hardware2 section is
emitted as the integer `1`, not as the lowercase literal `true`. -/
theorem hw2_bool_not_lowercased :
    ("    setAttr \"hardwareRenderingGlobals.multiSampleEnable\" 1;"
        ∈ melLinesD [("display", .vDict []),
            ("hardware2", .vDict [("multiSampleEnable", .vBool true)])])
    ∧ ¬ ("    setAttr \"hardwareRenderingGlobals.multiSampleEnable\" true;"
        ∈ melLinesD [("display", .vDict []),
            ("hardware2", .vDict [("multiSampleEnable", .vBool true)])]) := by
  decide

/-- The components of a successful emission and the fixed order in
which `settings_to_mel` concatenates them. -/
theorem melLines_shape (s : Snapshot) (L : List String)
    (h : melLines s = .ok L) :
    ∃ cg cm cf g dl bgl hwl,
      cameraGateLines s = .ok cg ∧ cameraMaskLines s = .ok cm
      ∧ cameraFilmfitLines s = .ok cf ∧ gpuBlock s = .ok g
      ∧ displayLines s = .ok dl ∧ backgroundLines s = .ok bgl
      ∧ hardware2Lines s = .ok hwl
      ∧ L = melPreamble ++ cg ++ cm ++ cf ++ ["    \x7d", ""] ++ g
          ++ ["    // Display Settings"] ++ dl ++ bgl ++ hwl ++ melClose := by
  unfold melLines at h
  cases hcg : cameraGateLines s with
  | error e => rw [hcg] at h; exact absurd h (by simp)
  | ok cg =>
  rw [hcg] at h
  cases hcm : cameraMaskLines s with
  | error e => rw [hcm] at h; exact absurd h (by simp)
  | ok cm =>
  rw [hcm] at h
  cases hcf : cameraFilmfitLines s with
  | error e => rw [hcf] at h; exact absurd h (by simp)
  | ok cf =>
  rw [hcf] at h
  cases hg : gpuBlock s with
  | error e => rw [hg] at h; exact absurd h (by simp)
  | ok g =>
  rw [hg] at h
  cases hdl : displayLines s with
  | error e => rw [hdl] at h; exact absurd h (by simp)
  | ok dl =>
  rw [hdl] at h
  cases hbgl : backgroundLines s with
  | error e => rw [hbgl] at h; exact absurd h (by simp)
  | ok bgl =>
  rw [hbgl] at h
  cases hhwl : hardware2Lines s with
  | error e => rw [hhwl] at h; exact absurd h (by simp)
  | ok hwl =>
  rw [hhwl] at h
  exact ⟨cg, cm, cf, g, dl, bgl, hwl, rfl, rfl, rfl, rfl, rfl, rfl, rfl,
    (Except.ok.inj h).symm⟩

/-- The GPU Cache block always consists of the fixed header, the
plugin-load guard, and the flag line. -/
theorem gpuBlock_shape (s : Snapshot) (g : List String)
    (h : gpuBlock s = .ok g) :
    ∃ v, g = ["    // GPU Cache Settings",
      "    if (!`pluginInfo -q -loaded \"gpuCache\"`)",
      "    \x7b",
      "        loadPlugin \"gpuCache\";",
      "    \x7d",
      "    modelEditor -e -pluginObjects gpuCacheDisplayFilter "
        ++ strLower (pyStr v) ++ " $panel;",
      ""] := by
  unfold gpuBlock at h
  cases hd : dget s "plugin_display" with
  | none =>
    rw [hd] at h
    exact ⟨.vBool false, (Except.ok.inj h).symm⟩
  | some v =>
    rw [hd] at h
    match v with
    | .vDict pd => exact ⟨_, (Except.ok.inj h).symm⟩
    | .vBool _ => exact absurd h (by simp)
    | .vInt _ => exact absurd h (by simp)
    | .vFloat _ => exact absurd h (by simp)
    | .vStr _ => exact absurd h (by simp)
    | .vList _ => exact absurd h (by simp)

/-- The background block begins with its header exactly when the
section is present. -/
theorem backgroundLines_marker (s : Snapshot) (bgl : List String)
    (h : backgroundLines s = .ok bgl) :
    (dmem s "background" = true →
      ∃ r, bgl = "" :: "    // Background Settings" :: r)
    ∧ (dmem s "background" = false → bgl = []) := by
  unfold backgroundLines at h
  cases hd : dget s "background" with
  | none =>
    rw [hd] at h
    refine ⟨fun ht => ?_, fun _ => (Except.ok.inj h).symm⟩
    rw [dmem, dget] at ht
    rw [dget] at hd
    rw [hd] at ht
    simp at ht
  | some bgv =>
    rw [hd] at h
    replace h : (match seqLines
        [sectLines bgv "gradient" mkGradientLine,
         sectLines bgv "topColor" (colorLine "backgroundTop"),
         sectLines bgv "color" (colorLine "background"),
         bottomPart bgv] with
      | Except.error e => Except.error e
      | Except.ok l =>
          Except.ok ("" :: "    // Background Settings" :: l)) = .ok bgl := h
    cases hsq : seqLines
        [sectLines bgv "gradient" mkGradientLine,
         sectLines bgv "topColor" (colorLine "backgroundTop"),
         sectLines bgv "color" (colorLine "background"),
         bottomPart bgv] with
    | error e => rw [hsq] at h; exact absurd h (by simp)
    | ok l =>
      rw [hsq] at h
      refine ⟨fun _ => ⟨l, (Except.ok.inj h).symm⟩, fun hf => ?_⟩
      rw [dmem, hd] at hf
      simp at hf

/-- The hardware2 block begins with its header exactly when the section
is present. -/
theorem hardware2Lines_marker (s : Snapshot) (hwl : List String)
    (h : hardware2Lines s = .ok hwl) :
    (dmem s "hardware2" = true →
      ∃ r, hwl = "" :: "    // Hardware 2.0 Settings" :: r)
    ∧ (dmem s "hardware2" = false → hwl = []) := by
  unfold hardware2Lines at h
  cases hd : dget s "hardware2" with
  | none =>
    rw [hd] at h
    refine ⟨fun ht => ?_, fun _ => (Except.ok.inj h).symm⟩
    rw [dmem, hd] at ht
    simp at ht
  | some hv =>
    rw [hd] at h
    match hv with
    | .vDict items =>
      replace h : (match emitItems hw2AttrLines items with
        | Except.error e => Except.error e
        | Except.ok l => Except.ok
            (["",
              "    // Hardware 2.0 Settings",
              "    if (!`objExists \"hardwareRenderingGlobals\"`) \x7b",
              "        createNode \"hardwareRenderingGlobals\";",
              "    \x7d"] ++ l)) = .ok hwl := h
      cases he : emitItems hw2AttrLines items with
      | error e => rw [he] at h; exact absurd h (by simp)
      | ok l =>
        rw [he] at h
        refine ⟨fun _ => ⟨_, (Except.ok.inj h).symm⟩, fun hf => ?_⟩
        rw [dmem, hd] at hf
        simp at hf
    | .vBool _ => exact absurd h (by simp)
    | .vInt _ => exact absurd h (by simp)
    | .vFloat _ => exact absurd h (by simp)
    | .vStr _ => exact absurd h (by simp)
    | .vList _ => exact absurd h (by simp)

/-- C2 (amended): in every successfully emitted script the sections
appear in the order camera fields, then the plugin (gpuCache) flag with
its plugin-load guard, then the display flags, then background, then
hardware-quality fields, and the script ends with the unconditional
self-invocation of the emitted procedure.  (The claim's order — display
flags before the plugin flag — is the apply-path order, not the
emitter's; see the counterexample.) -/
theorem mel_section_order (s : Snapshot) (L : List String)
    (h : melLines s = .ok L) :
    (["        // Camera Gate Settings",
      "    if (!`pluginInfo -q -loaded \"gpuCache\"`)",
      "    // Display Settings"]
      ++ (if dmem s "background" = true then ["    // Background Settings"] else [])
      ++ (if dmem s "hardware2" = true then ["    // Hardware 2.0 Settings"] else [])
      ++ ["viewportCaptureApply();"]).Sublist L
    ∧ L.getLast? = some "viewportCaptureApply();" := by
  obtain ⟨cg, cm, cf, g, dl, bgl, hwl, hcg, hcm, hcf, hg, hdl, hbgl, hhwl, hL⟩ :=
    melLines_shape s L h
  subst hL
  constructor
  · have hcam : ["        // Camera Gate Settings"].Sublist melPreamble := by
      simp [List.singleton_sublist, melPreamble]
    have hguard : ["    if (!`pluginInfo -q -loaded \"gpuCache\"`)"].Sublist g := by
      obtain ⟨v, rfl⟩ := gpuBlock_shape s g hg
      simp [List.singleton_sublist]
    have hbgm : (if dmem s "background" = true
        then ["    // Background Settings"] else []).Sublist bgl := by
      cases hb : dmem s "background"
      · simp
      · obtain ⟨r, hr⟩ := (backgroundLines_marker s bgl hbgl).1 hb
        rw [hr]
        simp [List.singleton_sublist]
    have hhwm : (if dmem s "hardware2" = true
        then ["    // Hardware 2.0 Settings"] else []).Sublist hwl := by
      cases hw : dmem s "hardware2"
      · simp
      · obtain ⟨r, hr⟩ := (hardware2Lines_marker s hwl hhwl).1 hw
        rw [hr]
        simp [List.singleton_sublist]
    have hclose : ["viewportCaptureApply();"].Sublist melClose := by
      simp [List.singleton_sublist, melClose]
    have main := hcam.append
      ((List.nil_sublist (cg ++ cm ++ cf ++ ["    \x7d", ""])).append
        (hguard.append
          ((List.Sublist.refl ["    // Display Settings"]).append
            ((List.nil_sublist dl).append
              (hbgm.append (hhwm.append hclose))))))
    simpa [List.append_assoc] using main
  · rw [List.getLast?_append]
    rfl

/-- C2 counterexample: the emitted script puts the GPU Cache (plugin)
block before the display flags, so the claimed order (display flags
first, then the plugin flag) fails already on a one-flag snapshot. -/
theorem gpu_block_precedes_display :
    ¬ (List.indexOf "    // Display Settings"
          (melLinesD [("display", .vDict [("wireframe", .vBool true)])])
        < List.indexOf "    // GPU Cache Settings"
          (melLinesD [("display", .vDict [("wireframe", .vBool true)])]))
    ∧ List.indexOf "    // GPU Cache Settings"
          (melLinesD [("display", .vDict [("wireframe", .vBool true)])])
        < List.indexOf "    // Display Settings"
          (melLinesD [("display", .vDict [("wireframe", .vBool true)])]) := by
  decide

theorem mel_section_order_witness :
    (["        // Camera Gate Settings",
      "    if (!`pluginInfo -q -loaded \"gpuCache\"`)",
      "    // Display Settings"]
      ++ (if dmem [("display", PyVal.vDict [])] "background" = true
          then ["    // Background Settings"] else [])
      ++ (if dmem [("display", PyVal.vDict [])] "hardware2" = true
          then ["    // Hardware 2.0 Settings"] else [])
      ++ ["viewportCaptureApply();"]).Sublist
        (melLinesD [("display", PyVal.vDict [])])
    ∧ (melLinesD [("display", PyVal.vDict [])]).getLast?
        = some "viewportCaptureApply();" :=
  mel_section_order [("display", PyVal.vDict [])]
    (melLinesD [("display", PyVal.vDict [])]) (by rfl)

theorem strStartsWith_append (p r : String) :
    strStartsWith (p ++ r) p = true := by
  unfold strStartsWith
  rw [String.data_append]
  simp [List.isPrefixOf_iff_prefix]

theorem strStartsWith_head_false (p a rest : String)
    (h1 : ¬ (a.data <+: p.data)) (h2 : ¬ (p.data <+: a.data)) :
    strStartsWith (a ++ rest) p = false := by
  unfold strStartsWith
  rw [String.data_append]
  cases hb : List.isPrefixOf p.data (a.data ++ rest.data)
  · rfl
  · exfalso
    have hc : p.data <+: a.data ++ rest.data :=
      List.isPrefixOf_iff_prefix.mp hb
    rcases List.prefix_or_prefix_of_prefix hc
        (List.prefix_append a.data rest.data) with hcase | hcase
    · exact h2 hcase
    · exact h1 hcase

/-- Provenance of a line through `seqLines`. -/
theorem seqLines_mem : ∀ (xs : List (Except String (List String)))
    (l : List String), seqLines xs = .ok l → ∀ y ∈ l,
    ∃ x ∈ xs, ∃ lx, x = .ok lx ∧ y ∈ lx
  | [], l, h, y, hy => by
    rw [show l = [] from (Except.ok.inj h).symm] at hy
    exact absurd hy (by simp)
  | x :: xs, l, h, y, hy => by
    unfold seqLines at h
    cases hx : x with
    | error e => rw [hx] at h; exact absurd h (by simp)
    | ok lx =>
      rw [hx] at h
      cases hxs : seqLines xs with
      | error e => rw [hxs] at h; exact absurd h (by simp)
      | ok ls =>
        rw [hxs] at h
        rw [show l = lx ++ ls from (Except.ok.inj h).symm] at hy
        rcases List.mem_append.mp hy with hmem | hmem
        · exact ⟨Except.ok lx, List.mem_cons_self _ _, lx, rfl, hmem⟩
        · obtain ⟨x', hx', lx', hlx', hy'⟩ := seqLines_mem xs ls hxs y hmem
          exact ⟨x', List.mem_cons_of_mem _ hx', lx', hlx', hy'⟩

/-- Provenance of a line through `emitItems`. -/
theorem emitItems_mem (f : String → PyVal → Except String (List String)) :
    ∀ (items : List (String × PyVal)) (l : List String),
    emitItems f items = .ok l → ∀ y ∈ l,
    ∃ p ∈ items, ∃ lp, f p.fst p.snd = .ok lp ∧ y ∈ lp
  | [], l, h, y, hy => by
    rw [show l = [] from (Except.ok.inj h).symm] at hy
    exact absurd hy (by simp)
  | (k, v) :: rest, l, h, y, hy => by
    unfold emitItems at h
    cases hx : f k v with
    | error e => rw [hx] at h; exact absurd h (by simp)
    | ok lx =>
      rw [hx] at h
      cases hxs : emitItems f rest with
      | error e => rw [hxs] at h; exact absurd h (by simp)
      | ok ls =>
        rw [hxs] at h
        rw [show l = lx ++ ls from (Except.ok.inj h).symm] at hy
        rcases List.mem_append.mp hy with hmem | hmem
        · exact ⟨(k, v), List.mem_cons_self _ _, lx, hx, hmem⟩
        · obtain ⟨p, hp, lp, hlp, hy'⟩ := emitItems_mem f rest ls hxs y hmem
          exact ⟨p, List.mem_cons_of_mem _ hp, lp, hlp, hy'⟩

/-- A successful `sectLines` either emitted nothing or emitted `mk v`
for the present value `v`. -/
theorem sectLines_cases (sect : PyVal) (key : String)
    (mk : PyVal → Except String (List String)) (l : List String)
    (h : sectLines sect key mk = .ok l) :
    l = [] ∨ ∃ v, mk v = .ok l := by
  unfold sectLines at h
  cases hc : pyContains sect key with
  | error e => rw [hc] at h; exact absurd h (by simp)
  | ok b =>
    rw [hc] at h
    cases b
    · exact Or.inl (Except.ok.inj h).symm
    · cases hs : pySubscript sect key with
      | error e => rw [hs] at h; exact absurd h (by simp)
      | ok v =>
        rw [hs] at h
        exact Or.inr ⟨v, h⟩

/-- A successful `sectLines` over a dict with the key present emits
`mk` of the stored value. -/
theorem sectLines_present (bg : List (String × PyVal)) (key : String)
    (mk : PyVal → Except String (List String)) (l : List String)
    (hm : dmem bg key = true) (h : sectLines (.vDict bg) key mk = .ok l) :
    ∃ v, dget bg key = some v ∧ mk v = .ok l := by
  obtain ⟨v, hv⟩ : ∃ v, dget bg key = some v := by
    unfold dmem at hm
    exact Option.isSome_iff_exists.mp hm
  refine ⟨v, hv, ?_⟩
  unfold sectLines at h
  replace h : (match pySubscript (.vDict bg) key with
    | Except.error e => Except.error e
    | Except.ok v => mk v) = .ok l := by
    rw [show pyContains (.vDict bg) key = .ok true from by
      simp [pyContains, hm]] at h
    exact h
  rw [show pySubscript (.vDict bg) key = .ok v from by
    simp [pySubscript, hv]] at h
  exact h

/-- Any line `colorLine` emits starts with the fixed
`displayRGBColor "<name>" ` head. -/
theorem colorLine_shape (name : String) (v : PyVal) (l : List String)
    (h : colorLine name v = .ok l) :
    ∃ r, l = [("    displayRGBColor \"" ++ name ++ "\" ") ++ r] := by
  unfold colorLine at h
  cases h0 : pyIndex v 0 with
  | error e => rw [h0] at h; exact absurd h (by simp)
  | ok a =>
    rw [h0] at h
    cases h1 : pyIndex v 1 with
    | error e => rw [h1] at h; exact absurd h (by simp)
    | ok b =>
      rw [h1] at h
      cases h2 : pyIndex v 2 with
      | error e => rw [h2] at h; exact absurd h (by simp)
      | ok c =>
        rw [h2] at h
        refine ⟨pyStr a ++ " " ++ pyStr b ++ " " ++ pyStr c ++ ";", ?_⟩
        rw [← (Except.ok.inj h)]
        simp [String.append_assoc]

/-- With the gradient off, the bottom-color part emits nothing. -/
theorem bottomPart_gradient_false (bg : List (String × PyVal))
    (hg : dget bg "gradient" = some (.vBool false)) :
    bottomPart (.vDict bg) = .ok [] := by
  show (if (match dget bg "gradient" with
            | some g => pyTruthy g
            | none => false) = true then
          (if dmem bg "bottomColor" = true then
            match pySubscript (PyVal.vDict bg) "bottomColor" with
            | Except.error e => Except.error e
            | Except.ok v => colorLine "backgroundBottom" v
          else Except.ok [])
        else Except.ok []) = Except.ok []
  rw [hg]
  rfl

theorem seqLines_cons (x : Except String (List String))
    (xs : List (Except String (List String))) (l : List String)
    (h : seqLines (x :: xs) = .ok l) :
    ∃ lx ls, x = .ok lx ∧ seqLines xs = .ok ls ∧ l = lx ++ ls := by
  unfold seqLines at h
  cases hx : x with
  | error e => rw [hx] at h; exact absurd h (by simp)
  | ok lx =>
    rw [hx] at h
    cases hxs : seqLines xs with
    | error e => rw [hxs] at h; exact absurd h (by simp)
    | ok ls =>
      rw [hxs] at h
      exact ⟨lx, ls, rfl, rfl, (Except.ok.inj h).symm⟩

/-- With the gradient on and a `bottomColor` entry, the bottom-color
part is exactly the bottom `displayRGBColor` statement. -/
theorem bottomPart_present (bg : List (String × PyVal)) (ld : List String)
    (hg : dget bg "gradient" = some (.vBool true))
    (hb : dmem bg "bottomColor" = true)
    (h : bottomPart (.vDict bg) = .ok ld) :
    ∃ v, colorLine "backgroundBottom" v = .ok ld := by
  obtain ⟨v, hv⟩ : ∃ v, dget bg "bottomColor" = some v := by
    unfold dmem at hb
    exact Option.isSome_iff_exists.mp hb
  refine ⟨v, ?_⟩
  replace h : (if (match dget bg "gradient" with
      | some g => pyTruthy g
      | none => false) = true then
      (if dmem bg "bottomColor" = true then
        match pySubscript (PyVal.vDict bg) "bottomColor" with
        | Except.error e => Except.error e
        | Except.ok v => colorLine "backgroundBottom" v
      else Except.ok [])
    else Except.ok []) = .ok ld := h
  have hcond : (match dget bg "gradient" with
      | some g => pyTruthy g
      | none => false) = true := by
    rw [hg]
    rfl
  rw [if_pos hcond, if_pos hb] at h
  rw [show pySubscript (.vDict bg) "bottomColor" = .ok v from by
    simp [pySubscript, hv]] at h
  exact h

theorem cameraGateLines_notBottom (s : Snapshot) (cg : List String)
    (h : cameraGateLines s = .ok cg) :
    ∀ y ∈ cg, strStartsWith y bottomColorStmt = false := by
  intro y hy
  unfold cameraGateLines at h
  cases hd : dget s "camera_gate" with
  | none =>
    rw [hd] at h
    rw [← (Except.ok.inj h)] at hy
    exact absurd hy (by simp)
  | some v =>
    rw [hd] at h
    obtain ⟨x, hx, lx, hlx, hylx⟩ := seqLines_mem _ cg h y hy
    simp only [List.mem_cons, List.not_mem_nil, or_false] at hx
    rcases hx with rfl | rfl | rfl
    · rcases sectLines_cases _ _ _ _ hlx with rfl | ⟨w, hw⟩
      · exact absurd hylx (by simp)
      · rw [← (Except.ok.inj hw)] at hylx
        simp only [List.mem_cons, List.not_mem_nil, or_false] at hylx
        subst hylx
        rw [String.append_assoc]
        exact strStartsWith_head_false _ "        camera -e -displayFilmGate " _
          (by decide) (by decide)
    · rcases sectLines_cases _ _ _ _ hlx with rfl | ⟨w, hw⟩
      · exact absurd hylx (by simp)
      · rw [← (Except.ok.inj hw)] at hylx
        simp only [List.mem_cons, List.not_mem_nil, or_false] at hylx
        subst hylx
        rw [String.append_assoc]
        exact strStartsWith_head_false _ "        camera -e -displayResolution " _
          (by decide) (by decide)
    · rcases sectLines_cases _ _ _ _ hlx with rfl | ⟨w, hw⟩
      · exact absurd hylx (by simp)
      · rw [← (Except.ok.inj hw)] at hylx
        simp only [List.mem_cons, List.not_mem_nil, or_false] at hylx
        subst hylx
        rw [String.append_assoc]
        exact strStartsWith_head_false _ "        camera -e -overscan " _
          (by decide) (by decide)

theorem cameraMaskLines_notBottom (s : Snapshot) (cm : List String)
    (h : cameraMaskLines s = .ok cm) :
    ∀ y ∈ cm, strStartsWith y bottomColorStmt = false := by
  intro y hy
  unfold cameraMaskLines at h
  cases hd : dget s "camera_mask" with
  | none =>
    rw [hd] at h
    rw [← (Except.ok.inj h)] at hy
    exact absurd hy (by simp)
  | some v =>
    rw [hd] at h
    rcases sectLines_cases _ _ _ _ h with rfl | ⟨w, hw⟩
    · exact absurd hy (by simp)
    · rw [← (Except.ok.inj hw)] at hy
      simp only [List.mem_cons, List.not_mem_nil, or_false] at hy
      subst hy
      rw [String.append_assoc]
      exact strStartsWith_head_false _ "        camera -e -displayGateMask " _
        (by decide) (by decide)

theorem cameraFilmfitLines_notBottom (s : Snapshot) (cf : List String)
    (h : cameraFilmfitLines s = .ok cf) :
    ∀ y ∈ cf, strStartsWith y bottomColorStmt = false := by
  intro y hy
  unfold cameraFilmfitLines at h
  cases hd : dget s "camera_filmfit" with
  | none =>
    rw [hd] at h
    rw [← (Except.ok.inj h)] at hy
    exact absurd hy (by simp)
  | some v =>
    rw [hd] at h
    rcases sectLines_cases _ _ _ _ h with rfl | ⟨w, hw⟩
    · exact absurd hy (by simp)
    · rw [← (Except.ok.inj hw)] at hy
      simp only [List.mem_cons, List.not_mem_nil, or_false] at hy
      subst hy
      rw [String.append_assoc]
      exact strStartsWith_head_false _ "        camera -e -filmFit " _
        (by decide) (by decide)

theorem gpuBlock_notBottom (s : Snapshot) (g : List String)
    (h : gpuBlock s = .ok g) :
    ∀ y ∈ g, strStartsWith y bottomColorStmt = false := by
  intro y hy
  obtain ⟨v, rfl⟩ := gpuBlock_shape s g h
  simp only [List.mem_cons, List.not_mem_nil, or_false] at hy
  rcases hy with rfl | rfl | rfl | rfl | rfl | rfl | rfl
  · decide
  · decide
  · decide
  · decide
  · decide
  · rw [String.append_assoc]
    exact strStartsWith_head_false _
      "    modelEditor -e -pluginObjects gpuCacheDisplayFilter " _
      (by decide) (by decide)
  · decide

theorem displayAttrLines_notBottom (attr : String) (v : PyVal)
    (l : List String) (h : displayAttrLines attr v = .ok l) :
    ∀ y ∈ l, strStartsWith y bottomColorStmt = false := by
  unfold displayAttrLines at h
  split at h
  · cases hn : pyToInt v with
    | error e => rw [hn] at h; exact absurd h (by simp)
    | ok n =>
      rw [hn] at h
      rw [← (Except.ok.inj h)]
      intro y hy
      simp only [List.mem_cons, List.not_mem_nil, or_false] at hy
      rcases hy with rfl | rfl | rfl | rfl | rfl
      · rw [String.append_assoc]
        exact strStartsWith_head_false _ "    modelEditor -e -hwFog " _
          (by decide) (by decide)
      · decide
      · decide
      · decide
      · rw [String.append_assoc]
        exact strStartsWith_head_false _
          "    setAttr \"hardwareRenderingGlobals.hwFogEnable\" " _
          (by decide) (by decide)
  · split at h
    · rw [← (Except.ok.inj h)]
      intro y hy
      simp only [List.mem_cons, List.not_mem_nil, or_false] at hy
      subst hy
      rw [String.append_assoc]
      exact strStartsWith_head_false _ "    modelEditor -e -fogging " _
        (by decide) (by decide)
    · split at h
      · rw [← (Except.ok.inj h)]
        intro y hy
        simp only [List.mem_cons, List.not_mem_nil, or_false] at hy
        subst hy
        simp only [String.append_assoc]
        exact strStartsWith_head_false _ "    modelEditor -e -" _
          (by decide) (by decide)
      · split at h
        · rw [← (Except.ok.inj h)]
          intro y hy
          simp only [List.mem_cons, List.not_mem_nil, or_false] at hy
          subst hy
          rw [String.append_assoc]
          exact strStartsWith_head_false _
            "    modelEditor -e -twoSidedLighting " _ (by decide) (by decide)
        · split at h
          · rw [← (Except.ok.inj h)]
            intro y hy
            simp only [List.mem_cons, List.not_mem_nil, or_false] at hy
            subst hy
            rw [String.append_assoc]
            exact strStartsWith_head_false _ "    modelEditor -e -shadows " _
              (by decide) (by decide)
          · split at h
            · rw [← (Except.ok.inj h)]
              intro y hy
              simp only [List.mem_cons, List.not_mem_nil, or_false] at hy
              subst hy
              rw [String.append_assoc]
              exact strStartsWith_head_false _ "    modelEditor -e -jointXray " _
                (by decide) (by decide)
            · split at h
              · rw [← (Except.ok.inj h)]
                intro y hy
                simp only [List.mem_cons, List.not_mem_nil, or_false] at hy
                subst hy
                rw [String.append_assoc]
                exact strStartsWith_head_false _
                  "    modelEditor -e -activeComponentsXray " _
                  (by decide) (by decide)
              · rw [← (Except.ok.inj h)]
                intro y hy
                simp only [List.mem_cons, List.not_mem_nil, or_false] at hy
                subst hy
                simp only [String.append_assoc]
                exact strStartsWith_head_false _ "    modelEditor -e -" _
                  (by decide) (by decide)

theorem displayLines_notBottom (s : Snapshot) (dl : List String)
    (h : displayLines s = .ok dl) :
    ∀ y ∈ dl, strStartsWith y bottomColorStmt = false := by
  intro y hy
  unfold displayLines at h
  cases hsub : pySubscript (.vDict s) "display" with
  | error e => rw [hsub] at h; exact absurd h (by simp)
  | ok v =>
    rw [hsub] at h
    match v with
    | .vDict items =>
      obtain ⟨p, _, lp, hlp, hylp⟩ := emitItems_mem _ items dl h y hy
      exact displayAttrLines_notBottom p.fst p.snd lp hlp y hylp
    | .vBool _ => exact absurd h (by simp)
    | .vInt _ => exact absurd h (by simp)
    | .vFloat _ => exact absurd h (by simp)
    | .vStr _ => exact absurd h (by simp)
    | .vList _ => exact absurd h (by simp)

theorem hw2AttrLines_notBottom (attr : String) (v : PyVal)
    (l : List String) (h : hw2AttrLines attr v = .ok l) :
    ∀ y ∈ l, strStartsWith y bottomColorStmt = false := by
  intro y hy
  have hscalar : ∀ (w : PyVal), l = ["    setAttr \"hardwareRenderingGlobals."
      ++ attr ++ "\" " ++ pyStr w ++ ";"] →
      strStartsWith y bottomColorStmt = false := by
    intro w hw
    rw [hw] at hy
    simp only [List.mem_cons, List.not_mem_nil, or_false] at hy
    subst hy
    simp only [String.append_assoc]
    exact strStartsWith_head_false _ "    setAttr \"hardwareRenderingGlobals." _
      (by decide) (by decide)
  match v with
  | .vBool b => exact hscalar _ (Except.ok.inj h).symm
  | .vInt n => exact hscalar _ (Except.ok.inj h).symm
  | .vFloat q => exact hscalar _ (Except.ok.inj h).symm
  | .vStr t => exact hscalar _ (Except.ok.inj h).symm
  | .vDict d => exact hscalar _ (Except.ok.inj h).symm
  | .vList [] => simp [hw2AttrLines, pyIndex, List.get?] at h
  | .vList [a] => simp [hw2AttrLines, pyIndex, List.get?] at h
  | .vList [a, b] => simp [hw2AttrLines, pyIndex, List.get?] at h
  | .vList (a :: b :: c :: rest) =>
    rw [← (Except.ok.inj h)] at hy
    simp only [List.mem_cons, List.not_mem_nil, or_false] at hy
    subst hy
    simp only [String.append_assoc]
    exact strStartsWith_head_false _ "    setAttr \"hardwareRenderingGlobals." _
      (by decide) (by decide)

theorem hardware2Lines_notBottom (s : Snapshot) (hwl : List String)
    (h : hardware2Lines s = .ok hwl) :
    ∀ y ∈ hwl, strStartsWith y bottomColorStmt = false := by
  intro y hy
  unfold hardware2Lines at h
  cases hd : dget s "hardware2" with
  | none =>
    rw [hd] at h
    rw [← (Except.ok.inj h)] at hy
    exact absurd hy (by simp)
  | some hv =>
    rw [hd] at h
    match hv with
    | .vDict items =>
      replace h : (match emitItems hw2AttrLines items with
        | Except.error e => Except.error e
        | Except.ok l => Except.ok
            (["",
              "    // Hardware 2.0 Settings",
              "    if (!`objExists \"hardwareRenderingGlobals\"`) \x7b",
              "        createNode \"hardwareRenderingGlobals\";",
              "    \x7d"] ++ l)) = .ok hwl := h
      cases he : emitItems hw2AttrLines items with
      | error e => rw [he] at h; exact absurd h (by simp)
      | ok l =>
        rw [he] at h
        rw [← (Except.ok.inj h)] at hy
        simp only [List.cons_append, List.nil_append, List.mem_cons] at hy
        rcases hy with rfl | rfl | rfl | rfl | rfl | hy
        · decide
        · decide
        · decide
        · decide
        · decide
        · obtain ⟨p, _, lp, hlp, hylp⟩ := emitItems_mem _ items l he y hy
          exact hw2AttrLines_notBottom p.fst p.snd lp hlp y hylp
    | .vBool _ => exact absurd h (by simp)
    | .vInt _ => exact absurd h (by simp)
    | .vFloat _ => exact absurd h (by simp)
    | .vStr _ => exact absurd h (by simp)
    | .vList _ => exact absurd h (by simp)

theorem backgroundLines_notBottom_of_gradient_false (s : Snapshot)
    (bg : List (String × PyVal)) (bgl : List String)
    (hbg : dget s "background" = some (.vDict bg))
    (hgrad : dget bg "gradient" = some (.vBool false))
    (h : backgroundLines s = .ok bgl) :
    ∀ y ∈ bgl, strStartsWith y bottomColorStmt = false := by
  intro y hy
  unfold backgroundLines at h
  rw [hbg] at h
  replace h : (match seqLines
      [sectLines (.vDict bg) "gradient" mkGradientLine,
       sectLines (.vDict bg) "topColor" (colorLine "backgroundTop"),
       sectLines (.vDict bg) "color" (colorLine "background"),
       bottomPart (.vDict bg)] with
    | Except.error e => Except.error e
    | Except.ok l =>
        Except.ok ("" :: "    // Background Settings" :: l)) = .ok bgl := h
  cases hsq : seqLines
      [sectLines (.vDict bg) "gradient" mkGradientLine,
       sectLines (.vDict bg) "topColor" (colorLine "backgroundTop"),
       sectLines (.vDict bg) "color" (colorLine "background"),
       bottomPart (.vDict bg)] with
  | error e => rw [hsq] at h; exact absurd h (by simp)
  | ok l =>
    rw [hsq] at h
    rw [← (Except.ok.inj h)] at hy
    simp only [List.mem_cons] at hy
    rcases hy with rfl | rfl | hy
    · decide
    · decide
    · obtain ⟨x, hx, lx, hlx, hylx⟩ := seqLines_mem _ l hsq y hy
      simp only [List.mem_cons, List.not_mem_nil, or_false] at hx
      rcases hx with rfl | rfl | rfl | rfl
      · rcases sectLines_cases _ _ _ _ hlx with rfl | ⟨w, hw⟩
        · exact absurd hylx (by simp)
        · rw [← (Except.ok.inj hw)] at hylx
          simp only [List.mem_cons, List.not_mem_nil, or_false] at hylx
          subst hylx
          rw [String.append_assoc]
          exact strStartsWith_head_false _ "    displayPref -displayGradient " _
            (by decide) (by decide)
      · rcases sectLines_cases _ _ _ _ hlx with rfl | ⟨w, hw⟩
        · exact absurd hylx (by simp)
        · obtain ⟨r, hr⟩ := colorLine_shape _ _ _ hw
          rw [hr] at hylx
          simp only [List.mem_cons, List.not_mem_nil, or_false] at hylx
          subst hylx
          exact strStartsWith_head_false _
            ("    displayRGBColor \"" ++ "backgroundTop" ++ "\" ") _
            (by decide) (by decide)
      · rcases sectLines_cases _ _ _ _ hlx with rfl | ⟨w, hw⟩
        · exact absurd hylx (by simp)
        · obtain ⟨r, hr⟩ := colorLine_shape _ _ _ hw
          rw [hr] at hylx
          simp only [List.mem_cons, List.not_mem_nil, or_false] at hylx
          subst hylx
          exact strStartsWith_head_false _
            ("    displayRGBColor \"" ++ "background" ++ "\" ") _
            (by decide) (by decide)
      · rw [bottomPart_gradient_false bg hgrad] at hlx
        rw [← (Except.ok.inj hlx)] at hylx
        exact absurd hylx (by simp)

/-- C5: the background gradient gates the bottom color.  When the
background section has `gradient` true together with `color` and
`bottomColor` entries, the emitted script contains the base-color write
statement and, after it, the bottom-color write statement; when
`gradient` is false, no bottom-color statement appears anywhere in the
emitted script, even if `bottomColor` is present. -/
theorem background_bottom_color_gating :
    (∀ (s : Snapshot) (bg : List (String × PyVal)) (L : List String),
      dget s "background" = some (.vDict bg) → melLines s = .ok L →
      dget bg "gradient" = some (.vBool true) →
      dmem bg "color" = true → dmem bg "bottomColor" = true →
      ∃ l1 l2, strStartsWith l1 baseColorStmt = true
        ∧ strStartsWith l2 bottomColorStmt = true
        ∧ [l1, l2].Sublist L)
    ∧ (∀ (s : Snapshot) (bg : List (String × PyVal)) (L : List String),
      dget s "background" = some (.vDict bg) → melLines s = .ok L →
      dget bg "gradient" = some (.vBool false) →
      ∀ l ∈ L, strStartsWith l bottomColorStmt = false) := by
  constructor
  · intro s bg L hbg hL hgrad hcol hbot
    obtain ⟨cg, cm, cf, g, dl, bgl, hwl, hcg, hcm, hcf, hg, hdl, hbgl, hhwl, rfl⟩ :=
      melLines_shape s L hL
    unfold backgroundLines at hbgl
    rw [hbg] at hbgl
    replace hbgl : (match seqLines
        [sectLines (.vDict bg) "gradient" mkGradientLine,
         sectLines (.vDict bg) "topColor" (colorLine "backgroundTop"),
         sectLines (.vDict bg) "color" (colorLine "background"),
         bottomPart (.vDict bg)] with
      | Except.error e => Except.error e
      | Except.ok l =>
          Except.ok ("" :: "    // Background Settings" :: l)) = .ok bgl := hbgl
    cases hsq : seqLines
        [sectLines (.vDict bg) "gradient" mkGradientLine,
         sectLines (.vDict bg) "topColor" (colorLine "backgroundTop"),
         sectLines (.vDict bg) "color" (colorLine "background"),
         bottomPart (.vDict bg)] with
    | error e => rw [hsq] at hbgl; exact absurd hbgl (by simp)
    | ok lbg =>
      rw [hsq] at hbgl
      obtain ⟨l1', ls1, hx1, hs1, rfl⟩ := seqLines_cons _ _ _ hsq
      obtain ⟨l2', ls2, hx2, hs2, rfl⟩ := seqLines_cons _ _ _ hs1
      obtain ⟨l3', ls3, hx3, hs3, rfl⟩ := seqLines_cons _ _ _ hs2
      obtain ⟨l4', ls4, hx4, hs4, rfl⟩ := seqLines_cons _ _ _ hs3
      obtain rfl : ls4 = [] := (Except.ok.inj hs4).symm
      obtain ⟨w3, hw3v, hw3⟩ := sectLines_present bg "color"
        (colorLine "background") l3' hcol hx3
      obtain ⟨r3, hr3⟩ := colorLine_shape _ _ _ hw3
      obtain ⟨w4, hw4⟩ := bottomPart_present bg l4' hgrad hbot hx4
      obtain ⟨r4, hr4⟩ := colorLine_shape _ _ _ hw4
      subst hr3
      subst hr4
      obtain rfl := Except.ok.inj hbgl
      refine ⟨("    displayRGBColor \"" ++ "background" ++ "\" ") ++ r3,
        ("    displayRGBColor \"" ++ "backgroundBottom" ++ "\" ") ++ r4,
        strStartsWith_append _ _, strStartsWith_append _ _, ?_⟩
      have hsub0 : [("    displayRGBColor \"" ++ "background" ++ "\" ") ++ r3,
          ("    displayRGBColor \"" ++ "backgroundBottom" ++ "\" ") ++ r4].Sublist
          ([("    displayRGBColor \"" ++ "background" ++ "\" ") ++ r3]
            ++ ([("    displayRGBColor \"" ++ "backgroundBottom" ++ "\" ") ++ r4]
              ++ ([] : List String))) := by
        simp only [List.append_nil, List.singleton_append]
        exact List.Sublist.refl _
      have hsub1 := (hsub0.trans (List.sublist_append_right l2' _)).trans
        (List.sublist_append_right l1' _)
      have hsub2 := (hsub1.cons "    // Background Settings").cons ""
      exact ((hsub2.trans (List.sublist_append_right _ _)).trans
        (List.sublist_append_left _ hwl)).trans
        (List.sublist_append_left _ melClose)
  · intro s bg L hbg hL hgrad l hl
    obtain ⟨cg, cm, cf, g, dl, bgl, hwl, hcg, hcm, hcf, hg, hdl, hbgl, hhwl, rfl⟩ :=
      melLines_shape s L hL
    simp only [List.mem_append] at hl
    rcases hl with ((((((((((hl | hl) | hl) | hl) | hl) | hl) | hl) | hl) | hl) | hl) | hl)
    · exact (by decide :
        ∀ y ∈ melPreamble, strStartsWith y bottomColorStmt = false) l hl
    · exact cameraGateLines_notBottom s cg hcg l hl
    · exact cameraMaskLines_notBottom s cm hcm l hl
    · exact cameraFilmfitLines_notBottom s cf hcf l hl
    · simp only [List.mem_cons, List.not_mem_nil, or_false] at hl
      rcases hl with rfl | rfl
      · decide
      · decide
    · exact gpuBlock_notBottom s g hg l hl
    · simp only [List.mem_cons, List.not_mem_nil, or_false] at hl
      subst hl
      decide
    · exact displayLines_notBottom s dl hdl l hl
    · exact backgroundLines_notBottom_of_gradient_false s bg bgl hbg hgrad hbgl l hl
    · exact hardware2Lines_notBottom s hwl hhwl l hl
    · exact (by decide :
        ∀ y ∈ melClose, strStartsWith y bottomColorStmt = false) l hl

theorem background_bottom_color_gating_witness :
    (∃ l1 l2, strStartsWith l1 baseColorStmt = true
      ∧ strStartsWith l2 bottomColorStmt = true
      ∧ [l1, l2].Sublist (melLinesD
          [("display", .vDict []),
           ("background", .vDict
             [("gradient", .vBool true),
              ("color", .vList [.vInt 1, .vInt 0, .vInt 0]),
              ("bottomColor", .vList [.vInt 0, .vInt 0, .vInt 1])])]))
    ∧ (∀ l ∈ melLinesD
          [("display", .vDict []),
           ("background", .vDict
             [("gradient", .vBool false),
              ("bottomColor", .vList [.vInt 0, .vInt 0, .vInt 1])])],
        strStartsWith l bottomColorStmt = false) :=
  ⟨background_bottom_color_gating.1
      [("display", .vDict []),
       ("background", .vDict
         [("gradient", .vBool true),
          ("color", .vList [.vInt 1, .vInt 0, .vInt 0]),
          ("bottomColor", .vList [.vInt 0, .vInt 0, .vInt 1])])]
      [("gradient", .vBool true),
       ("color", .vList [.vInt 1, .vInt 0, .vInt 0]),
       ("bottomColor", .vList [.vInt 0, .vInt 0, .vInt 1])]
      _ (by rfl) (by rfl) (by rfl) (by rfl) (by rfl),
   background_bottom_color_gating.2
      [("display", .vDict []),
       ("background", .vDict
         [("gradient", .vBool false),
          ("bottomColor", .vList [.vInt 0, .vInt 0, .vInt 1])])]
      [("gradient", .vBool false),
       ("bottomColor", .vList [.vInt 0, .vInt 0, .vInt 1])]
      _ (by rfl) (by rfl) (by rfl)⟩
